import Mathlib

/-!
# rotors_gazebo_plugins: the Gazebo MAVLink interface

A shallow embedding of `rotors_gazebo_plugins/src/gazebo_mavlink_interface.cpp`.

* C++ `double`/`float` values are read as elements of an ordered field `α`
  (instantiated with `ℚ` to run the definitions, with `ℝ` for the trigonometry).
* The calls into the C math library are taken as a record `Libm α`.
* The plugin object is an explicit record `GazeboMavlinkInterface α`; every
  callback is a function from the object (and its inputs) to the new object and
  the list of effects it produced.
-/

namespace gazebo

/-! ## Library types used by the plugin -/

/-- A `gazebo::common::Time`: a signed simulation time.  The library keeps it as a
normalised pair `(sec, nsec)` of 32-bit integers; the embedding keeps the number
of nanoseconds that the pair denotes, without a bound.  The difference and the
order of two times are those of their nanosecond counts; the fields `sec` and
`nsec` are read off the count (the plugin reads them off the simulation time,
which is never negative). -/
structure Time where
  ns : Int
deriving DecidableEq

namespace Time

/-- The field `sec` of a `common::Time`. -/
def sec (t : Time) : Int := t.ns / 1000000000

/-- The field `nsec` of a `common::Time`. -/
def nsec (t : Time) : Int := t.ns % 1000000000

/-- The library operator `Time::operator-`. -/
def sub (a b : Time) : Time := ⟨a.ns - b.ns⟩

/-- The library operator `Time::operator+`. -/
def add (a b : Time) : Time := ⟨a.ns + b.ns⟩

instance : Sub Time := ⟨sub⟩

instance : Add Time := ⟨add⟩

instance : LT Time := ⟨fun a b => a.ns < b.ns⟩

instance : LE Time := ⟨fun a b => a.ns ≤ b.ns⟩

instance (a b : Time) : Decidable (a < b) := inferInstanceAs (Decidable (a.ns < b.ns))

instance (a b : Time) : Decidable (a ≤ b) := inferInstanceAs (Decidable (a.ns ≤ b.ns))

/-- The constructor `common::Time(double)`: the argument is a number of seconds;
`sec` is its floor and `nsec` the rounded remainder. -/
def ofDouble {α : Type} [LinearOrderedField α] [FloorRing α] (seconds : α) : Time :=
  ⟨⌊seconds⌋ * 1000000000 + round ((seconds - (⌊seconds⌋ : α)) * 1000000000)⟩

end Time

/-- A `math::Vector3`. -/
structure Vector3 (α : Type) where
  x : α
  y : α
  z : α
deriving DecidableEq

/-- A `math::Quaternion`. -/
structure Quaternion (α : Type) where
  w : α
  x : α
  y : α
  z : α
deriving DecidableEq

/-- The functions of the C math library that the plugin calls, and `M_PI`. -/
structure Libm (α : Type) where
  M_PI : α
  sqrt : α → α
  sin : α → α
  cos : α → α
  asin : α → α
  atan2 : α → α → α

section Numeric

variable {α : Type} [LinearOrderedField α] [FloorRing α]

/-- Conversion of a floating-point value to an integer type: the fraction is
discarded (rounding toward zero).  The integer is then reduced to the width of
the destination by `toSigned` or `toUnsigned`; C++ leaves the result open for a
value that the destination cannot hold. -/
def truncate (x : α) : Int := if 0 ≤ x then ⌊x⌋ else ⌈x⌉

/-- Reduction of an integer to an unsigned type of `w` bits. -/
def toUnsigned (w : Nat) (n : Int) : Int := n % 2 ^ w

/-- Reduction of an integer to a signed (two's complement) type of `w` bits. -/
def toSigned (w : Nat) (n : Int) : Int := (n + 2 ^ (w - 1)) % 2 ^ w - 2 ^ (w - 1)

namespace Vector3

/-- The method `Vector3::GetLength`. -/
def GetLength (L : Libm α) (v : Vector3 α) : α :=
  L.sqrt (v.x * v.x + v.y * v.y + v.z * v.z)

end Vector3

namespace Quaternion

/-- The library operator `Quaternion::operator*`. -/
def mul (p q : Quaternion α) : Quaternion α :=
  { w := p.w * q.w - p.x * q.x - p.y * q.y - p.z * q.z
    x := p.w * q.x + p.x * q.w + p.y * q.z - p.z * q.y
    y := p.w * q.y - p.x * q.z + p.y * q.w + p.z * q.x
    z := p.w * q.z + p.x * q.y - p.y * q.x + p.z * q.w }

/-- The method `Quaternion::GetInverse`: the conjugate divided by the squared
norm; the identity when the squared norm is (within `1e-6` of) zero. -/
def GetInverse (q : Quaternion α) : Quaternion α :=
  let s := q.w * q.w + q.x * q.x + q.y * q.y + q.z * q.z
  if |s - 0| ≤ 1 / 1000000 then { w := 1, x := 0, y := 0, z := 0 }
  else { w := q.w / s, x := -q.x / s, y := -q.y / s, z := -q.z / s }

/-- The method `Quaternion::RotateVectorReverse`: `q⁻¹ * (v * q)`. -/
def RotateVectorReverse (q : Quaternion α) (v : Vector3 α) : Vector3 α :=
  let tmp : Quaternion α := { w := 0, x := v.x, y := v.y, z := v.z }
  let r := mul (GetInverse q) (mul tmp q)
  { x := r.x, y := r.y, z := r.z }

end Quaternion

end Numeric

/-! ## Messages -/

/-- The fields of a `mavlink_hil_controls_t` that the plugin reads. -/
structure mavlink_hil_controls_t (α : Type) where
  roll_ailerons : α
  pitch_elevator : α
  yaw_rudder : α
  throttle : α
  aux1 : α
  aux2 : α
  aux3 : α
  aux4 : α
deriving DecidableEq

/-- A `mavlink_hil_gps_t`.  `time_usec` is a `uint64_t`; `lat`, `lon`, `alt` are
`int32_t`; `eph`, `epv`, `vel`, `cog` are `uint16_t`; `vn`, `ve`, `vd` are
`int16_t`; `fix_type` and `satellites_visible` are `uint8_t`. -/
structure mavlink_hil_gps_t where
  time_usec : Int
  lat : Int
  lon : Int
  alt : Int
  eph : Int
  epv : Int
  vel : Int
  vn : Int
  ve : Int
  vd : Int
  cog : Int
  fix_type : Int
  satellites_visible : Int
deriving DecidableEq

/-- A `mavlink_hil_sensor_t`.  `time_usec` is a `uint64_t`, `fields_updated` a
`uint32_t`, the other fields are `float`. -/
structure mavlink_hil_sensor_t (α : Type) where
  time_usec : Int
  xacc : α
  yacc : α
  zacc : α
  xgyro : α
  ygyro : α
  zgyro : α
  xmag : α
  ymag : α
  zmag : α
  abs_pressure : α
  diff_pressure : α
  pressure_alt : α
  temperature : α
  fields_updated : Int
deriving DecidableEq

/-- A `mav_msgs::Actuators` message: the angular velocities and the header stamp. -/
structure Actuators (α : Type) where
  angular_velocities : List α
  stamp_sec : Int
  stamp_nsec : Int
deriving DecidableEq

/-- A `sensor_msgs::Imu` message: the header stamp (`uint32_t` seconds and
nanoseconds) and the fields that the plugin reads. -/
structure Imu (α : Type) where
  stamp_sec : Int
  stamp_nsec : Int
  orientation : Quaternion α
  angular_velocity : Vector3 α
  linear_acceleration : Vector3 α
deriving DecidableEq

/-- The wire codec for inbound packets, which is not part of the plugin:
`mavros_msgs::mavlink::convert` from a ROS message `R` to a `mavlink_message_t`
`M` (it may fail), and `mavlink_msg_hil_controls_decode`. -/
structure Codec (R M α : Type) where
  convert : R → Option M
  decode : M → mavlink_hil_controls_t α

/-- What the simulator answers when the plugin queries it during a callback. -/
structure World (α : Type) where
  /-- The value of `world_->GetSimTime()`. -/
  simTime : Time
  /-- The value of `model_->GetWorldPose().pos`. -/
  pos : Vector3 α
  /-- The value of `model_->GetWorldLinearVel()`. -/
  linearVel : Vector3 α
  /-- The value of `world_->GetPhysicsEngine()->GetGravity()`. -/
  gravity : Vector3 α

/-- What a callback does to the outside: a message published on
`motor_velocity_reference_pub_`, a HIL GPS or HIL sensor packet published on
`hil_sensor_pub_`, or a line written to `std::cout`. -/
inductive Effect (α : Type) where
  | actuators (msg : Actuators α)
  | hil_gps (msg : mavlink_hil_gps_t)
  | hil_sensor (msg : mavlink_hil_sensor_t α)
  | cout (text : String)
deriving DecidableEq

/-! ## The plugin object -/

/-- The member `inputs`, holding the array `inputs.control` of the eight control
channels. -/
structure Inputs (α : Type) where
  control : List α
deriving DecidableEq

/-- The data members of `GazeboMavlinkInterface` that the callbacks read or write. -/
structure GazeboMavlinkInterface (α : Type) where
  received_first_referenc_ : Bool
  input_reference_ : List α
  _rotor_count : Int
  last_time_ : Time
  last_gps_time_ : Time
  gps_update_interval_ : α
  gravity_W_ : Vector3 α
  mag_W_ : Vector3 α
  inputs : Inputs α
  hil_gps_msg_ : mavlink_hil_gps_t
  hil_sensor_msg_ : mavlink_hil_sensor_t α
  /-- The mean and standard deviation of `standard_normal_distribution_`. -/
  standard_normal_distribution_ : α × α
deriving DecidableEq

/-- The operations of the bridge, each with the inputs it receives: a world
update (`OnUpdate`), an inertial update (`ImuCallback`, with the sample the
random generator draws), an inbound control packet (`MavlinkControlCallback`). -/
inductive Op (R α : Type) where
  | tick (world : World α)
  | imu (world : World α) (imu_message : Imu α) (mag_noise : α)
  | control (rmsg : R)

section Plugin

variable {α : Type} [LinearOrderedField α] [FloorRing α] {R M : Type}

/-- A loop `for (i = 0; i < v.size(); i++)` that copies `v[i]` to position `i`
of the destination. -/
def copyAll (v : List α) : List α := List.ofFn (fun i : Fin v.length => v.get i)

/-- A division in which a zero divisor is an error. -/
def checkedDiv (a b : α) : Option α := if b = 0 then none else some (a / b)

/-- The value of the local `gps_update_interval_` that `Load` declares. -/
structure Load.Locals (α : Type) where
  gps_update_interval_ : α

/-- The method `GazeboMavlinkInterface::Load`: the members it assigns from the
world and from constants, together with the local variable
`double gps_update_interval_` that it declares. -/
def Load (self : GazeboMavlinkInterface α) (world : World α) :
    GazeboMavlinkInterface α × Load.Locals α :=
  let gps_update_interval_ : α := 200 * 1000000
  ({ self with
      _rotor_count := 4
      last_time_ := world.simTime
      last_gps_time_ := world.simTime
      gravity_W_ := world.gravity
      mag_W_ := { x := 21523 / 100000, y := 771 / 100000, z := 42741 / 100000 } },
   { gps_update_interval_ := gps_update_interval_ })

/-- The local `lat_zurich` of `OnUpdate`. -/
def OnUpdate.lat_zurich (L : Libm α) : α := 473667 / 10000 * L.M_PI / 180

/-- The local `lon_zurich` of `OnUpdate`. -/
def OnUpdate.lon_zurich (L : Libm α) : α := 85500 / 10000 * L.M_PI / 180

/-- The local `earth_radius` of `OnUpdate`. -/
def OnUpdate.earth_radius : α := 6353000

/-- The block of `OnUpdate` that reprojects the local position to GPS
coordinates: the pair `(lat_rad, lon_rad)`. -/
def OnUpdate.reproject (L : Libm α) (pos_W_I : Vector3 α) : α × α :=
  let x_rad := pos_W_I.x / OnUpdate.earth_radius
  let y_rad := -pos_W_I.y / OnUpdate.earth_radius
  let c := L.sqrt (x_rad * x_rad + y_rad * y_rad)
  let sin_c := L.sin c
  let cos_c := L.cos c
  if c ≠ 0 then
    (L.asin (cos_c * L.sin (OnUpdate.lat_zurich L)
        + (x_rad * sin_c * L.cos (OnUpdate.lat_zurich L)) / c),
     OnUpdate.lon_zurich L
        + L.atan2 (y_rad * sin_c)
            (c * L.cos (OnUpdate.lat_zurich L) * cos_c
              - x_rad * L.sin (OnUpdate.lat_zurich L) * sin_c))
  else
    (OnUpdate.lat_zurich L, OnUpdate.lon_zurich L)

/-- The same block of `OnUpdate`, with every division it evaluates checked: the
result is `none` as soon as one divisor is zero. -/
def OnUpdate.reprojectChecked (L : Libm α) (pos_W_I : Vector3 α) : Option (α × α) := do
  let lat_zurich ← checkedDiv (473667 / 10000 * L.M_PI) 180
  let lon_zurich ← checkedDiv (85500 / 10000 * L.M_PI) 180
  let x_rad ← checkedDiv pos_W_I.x OnUpdate.earth_radius
  let y_rad ← checkedDiv (-pos_W_I.y) OnUpdate.earth_radius
  let c := L.sqrt (x_rad * x_rad + y_rad * y_rad)
  let sin_c := L.sin c
  let cos_c := L.cos c
  if c ≠ 0 then do
    let q ← checkedDiv (x_rad * sin_c * L.cos lat_zurich) c
    pure (L.asin (cos_c * L.sin lat_zurich + q),
          lon_zurich
            + L.atan2 (y_rad * sin_c)
                (c * L.cos lat_zurich * cos_c - x_rad * L.sin lat_zurich * sin_c))
  else
    pure (lat_zurich, lon_zurich)

/-- The HIL GPS record that `OnUpdate` fills in when the gate is open. -/
def OnUpdate.hil_gps (L : Libm α) (current_time : Time) (pos_W_I : Vector3 α)
    (velocity_current_W : Vector3 α) : mavlink_hil_gps_t :=
  let velocity_current_W_xy : Vector3 α := { velocity_current_W with z := 0 }
  let lat_rad := (OnUpdate.reproject L pos_W_I).1
  let lon_rad := (OnUpdate.reproject L pos_W_I).2
  let vn := toSigned 16 (truncate (velocity_current_W.x * 100))
  let ve := toSigned 16 (truncate (-velocity_current_W.y * 100))
  { time_usec := toUnsigned 64 (toSigned 32 (current_time.nsec * 1000))
    fix_type := 3
    lat := toSigned 32 (truncate (lat_rad * 180 / L.M_PI * 10000000))
    lon := toSigned 32 (truncate (lon_rad * 180 / L.M_PI * 10000000))
    alt := toSigned 32 (truncate (pos_W_I.z * 1000))
    eph := 100
    epv := 100
    vel := toUnsigned 16 (truncate (Vector3.GetLength L velocity_current_W_xy * 100))
    vn := vn
    ve := ve
    vd := toSigned 16 (truncate (-velocity_current_W.z * 100))
    cog := toUnsigned 16 (truncate (L.atan2 (ve : α) (vn : α) * 180 / (31416 / 10000) * 100))
    satellites_visible := 10 }

/-- The method `GazeboMavlinkInterface::OnUpdate`, called at every world update.
The locals `dt` and `t`, which nothing reads, are left out. -/
def OnUpdate (L : Libm α) (self : GazeboMavlinkInterface α) (world : World α) :
    GazeboMavlinkInterface α × List (Effect α) :=
  if !self.received_first_referenc_ then (self, [])
  else
    let now := world.simTime
    let turning_velocities_msg : Actuators α :=
      { angular_velocities := copyAll self.input_reference_
        stamp_sec := now.sec
        stamp_nsec := now.nsec }
    let current_time := now
    let self1 := { self with last_time_ := current_time }
    let gps_update : Time := Time.ofDouble self1.gps_update_interval_
    if current_time - self1.last_gps_time_ > gps_update then
      let msg := OnUpdate.hil_gps L current_time world.pos world.linearVel
      ({ self1 with hil_gps_msg_ := msg, last_gps_time_ := current_time },
       [Effect.actuators turning_velocities_msg, Effect.hil_gps msg])
    else
      (self1, [Effect.actuators turning_velocities_msg])

/-- The method `GazeboMavlinkInterface::CommandMotorMavros`. -/
def CommandMotorMavros (self : GazeboMavlinkInterface α)
    (input_reference_msg : Actuators α) : GazeboMavlinkInterface α :=
  { self with
      input_reference_ := copyAll input_reference_msg.angular_velocities
      received_first_referenc_ := true }

/-- The loop `for (int i = 0; i < _rotor_count; i++)` of `MavlinkControlCallback`,
which appends `inputs.control[i] * scaling + offset` to the message: the values
appended from index `i` on when `k` iterations remain.  The result is `none` when
an index falls outside the array. -/
def MavlinkControlCallback.loop (control : List α) (scaling offset : α) :
    Nat → Nat → Option (List α)
  | _, 0 => some []
  | i, k + 1 =>
    match control[i]? with
    | some c =>
      (MavlinkControlCallback.loop control scaling offset (i + 1) k).map
        (fun rest => (c * scaling + offset) :: rest)
    | none => none

/-- The method `GazeboMavlinkInterface::MavlinkControlCallback`.  Reading
`inputs.control[i]` past the end of the array has no defined result: the
callback then returns `none`. -/
def MavlinkControlCallback (K : Codec R M α) (self : GazeboMavlinkInterface α) (rmsg : R) :
    Option (GazeboMavlinkInterface α × List (Effect α)) :=
  match K.convert rmsg with
  | some mmsg =>
    let act_msg := K.decode mmsg
    let inputs : Inputs α :=
      { control := [act_msg.roll_ailerons, act_msg.pitch_elevator, act_msg.yaw_rudder,
                    act_msg.throttle, act_msg.aux1, act_msg.aux2, act_msg.aux3, act_msg.aux4] }
    let self1 := { self with inputs := inputs }
    let scaling : α := 340
    let offset : α := 500
    match MavlinkControlCallback.loop inputs.control scaling offset 0
        self1._rotor_count.toNat with
    | some angular_velocities =>
      some (CommandMotorMavros self1
        { angular_velocities := angular_velocities, stamp_sec := 0, stamp_nsec := 0 }, [])
    | none => none
  | none => some (self, [Effect.cout "incorrect mavlink data\n"])

/-- The method `GazeboMavlinkInterface::ImuCallback`; `mag_noise` is the sample
drawn from `standard_normal_distribution_`. -/
def ImuCallback (self : GazeboMavlinkInterface α) (world : World α) (imu_message : Imu α)
    (mag_noise : α) : GazeboMavlinkInterface α × List (Effect α) :=
  let pos_W_I := world.pos
  let C_W_I : Quaternion α :=
    { w := imu_message.orientation.w
      x := imu_message.orientation.x
      y := imu_message.orientation.y
      z := imu_message.orientation.z }
  let mag_I := C_W_I.RotateVectorReverse self.mag_W_
  let body_vel := C_W_I.RotateVectorReverse world.linearVel
  let msg : mavlink_hil_sensor_t α :=
    { time_usec := toUnsigned 64 (toUnsigned 32 (imu_message.stamp_nsec * 1000))
      xacc := imu_message.linear_acceleration.x
      yacc := imu_message.linear_acceleration.y
      zacc := imu_message.linear_acceleration.z
      xgyro := imu_message.angular_velocity.x
      ygyro := imu_message.angular_velocity.y
      zgyro := imu_message.angular_velocity.z
      xmag := mag_I.x + mag_noise
      ymag := mag_I.y + mag_noise
      zmag := mag_I.z + mag_noise
      abs_pressure := 0
      diff_pressure := 5 / 10 * (12754 / 10000) * body_vel.x * body_vel.x
      pressure_alt := pos_W_I.z
      temperature := 0
      fields_updated := 4095 }
  ({ self with
      standard_normal_distribution_ := (0, 1 / 100)
      hil_sensor_msg_ := msg },
   [Effect.hil_sensor msg])

/-- One operation of the bridge. -/
def step (L : Libm α) (K : Codec R M α) (self : GazeboMavlinkInterface α) :
    Op R α → Option (GazeboMavlinkInterface α × List (Effect α))
  | Op.tick world => some (OnUpdate L self world)
  | Op.imu world imu_message mag_noise => some (ImuCallback self world imu_message mag_noise)
  | Op.control rmsg => MavlinkControlCallback K self rmsg

/-- A sequence of operations, one after the other; the effects are collected in
order. -/
def run (L : Libm α) (K : Codec R M α) :
    GazeboMavlinkInterface α → List (Op R α) → Option (GazeboMavlinkInterface α × List (Effect α))
  | self, [] => some (self, [])
  | self, op :: ops =>
    match step L K self op with
    | some (self1, out1) =>
      match run L K self1 ops with
      | some (self2, out2) => some (self2, out1 ++ out2)
      | none => none
    | none => none

/-- The actuator-command messages among the effects. -/
def actuatorMessages : List (Effect α) → List (Actuators α)
  | [] => []
  | Effect.actuators msg :: out => msg :: actuatorMessages out
  | _ :: out => actuatorMessages out

/-- The HIL GPS packets among the effects. -/
def gpsPackets : List (Effect α) → List mavlink_hil_gps_t
  | [] => []
  | Effect.hil_gps msg :: out => msg :: gpsPackets out
  | _ :: out => gpsPackets out

end Plugin

/-! ## Names used in the statements, and concrete instances to run the callbacks -/

/-- The eight control channels of a decoded packet, in the order in which
`MavlinkControlCallback` stores them in `inputs.control`. -/
def channels {α : Type} (act_msg : mavlink_hil_controls_t α) : List α :=
  [act_msg.roll_ailerons, act_msg.pitch_elevator, act_msg.yaw_rudder, act_msg.throttle,
   act_msg.aux1, act_msg.aux2, act_msg.aux3, act_msg.aux4]

/-- A rational stand-in for the math library, to run the callbacks on rational
inputs: the exact square root on squares of rationals and the leading terms of
the other functions near zero. -/
def Libm.rational : Libm ℚ :=
  { M_PI := 355 / 113
    sqrt := Rat.sqrt
    sin := fun x => x - x ^ 3 / 6
    cos := fun x => 1 - x ^ 2 / 2
    asin := fun x => x + x ^ 3 / 6
    atan2 := fun y x => if x = 0 then 0 else y / x }

/-- A codec whose ROS message carries the decoded record itself, or nothing when
its conversion fails. -/
def Codec.direct : Codec (Option (mavlink_hil_controls_t ℚ)) (mavlink_hil_controls_t ℚ) ℚ :=
  { convert := fun rmsg => rmsg
    decode := fun mmsg => mmsg }

/-- A plugin object before `Load`, with no command received and every number zero. -/
def GazeboMavlinkInterface.blank : GazeboMavlinkInterface ℚ :=
  { received_first_referenc_ := false
    input_reference_ := []
    _rotor_count := 0
    last_time_ := ⟨0⟩
    last_gps_time_ := ⟨0⟩
    gps_update_interval_ := 0
    gravity_W_ := ⟨0, 0, 0⟩
    mag_W_ := ⟨0, 0, 0⟩
    inputs := ⟨[0, 0, 0, 0, 0, 0, 0, 0]⟩
    hil_gps_msg_ := ⟨0, 0, 0, 0, 0, 0, 0, 0, 0, 0, 0, 0, 0⟩
    hil_sensor_msg_ := ⟨0, 0, 0, 0, 0, 0, 0, 0, 0, 0, 0, 0, 0, 0, 0⟩
    standard_normal_distribution_ := (0, 1) }

/-- A world at simulation time `t` nanoseconds, the model at rest at the origin. -/
def World.atRest (t : Int) : World ℚ :=
  { simTime := ⟨t⟩
    pos := ⟨0, 0, 0⟩
    linearVel := ⟨0, 0, 0⟩
    gravity := ⟨0, 0, -981 / 100⟩ }

/-- A plugin object after `Load` at time zero whose `gps_update_interval_` holds
`0.2` (seconds), with `received_first_referenc_` as given. -/
def GazeboMavlinkInterface.ready (received : Bool) : GazeboMavlinkInterface ℚ :=
  { (Load GazeboMavlinkInterface.blank (World.atRest 0)).1 with
      gps_update_interval_ := 1 / 5
      received_first_referenc_ := received }

/-- A control packet with channel values `0, 1, 1/2, -1` and auxiliary channels
`5, 6, 7, 8`. -/
def mavlink_hil_controls_t.sample : mavlink_hil_controls_t ℚ :=
  { roll_ailerons := 0, pitch_elevator := 1, yaw_rudder := 1 / 2, throttle := -1,
    aux1 := 5, aux2 := 6, aux3 := 7, aux4 := 8 }

/-- The math library read over the real numbers: `atan2 y x` is the argument, in
the interval `(-π, π]`, of the complex number `x + y i`.  The two zeros of
floating point are one number here, so that `atan2 0 x` is `π` for a negative `x`,
where C returns `π` for `+0.0` and `-π` for `-0.0`. -/
noncomputable def Libm.real : Libm ℝ :=
  { M_PI := Real.pi
    sqrt := Real.sqrt
    sin := Real.sin
    cos := Real.cos
    asin := Real.arcsin
    atan2 := fun y x => Complex.arg ⟨x, y⟩ }

/-- The conjugate of a quaternion, which is its inverse when it has unit length. -/
def Quaternion.conj {α : Type} [LinearOrderedField α] (q : Quaternion α) : Quaternion α :=
  { w := q.w, x := -q.x, y := -q.y, z := -q.z }

/-- The rotation of a vector by a unit quaternion `p`: the vector part of
`p * v * conj p`. -/
def Quaternion.rotate {α : Type} [LinearOrderedField α] (p : Quaternion α) (v : Vector3 α) :
    Vector3 α :=
  let r := Quaternion.mul (Quaternion.mul p { w := 0, x := v.x, y := v.y, z := v.z })
    (Quaternion.conj p)
  { x := r.x, y := r.y, z := r.z }

/-- An inertial update stamped `(2, 5000)`, with the orientation `(w, x, y, z) =
(3/5, 0, 0, 4/5)`, a rotation about the vertical axis. -/
def Imu.sample : Imu ℚ :=
  { stamp_sec := 2
    stamp_nsec := 5000
    orientation := ⟨3 / 5, 0, 0, 4 / 5⟩
    angular_velocity := ⟨1 / 10, 2 / 10, 3 / 10⟩
    linear_acceleration := ⟨1, 2, 981 / 100⟩ }

/-- A world at simulation time `t` nanoseconds, the model at the position `pos`
with the linear velocity `vel`. -/
def World.moving {α : Type} [LinearOrderedField α] (t : Int) (pos vel : Vector3 α) : World α :=
  { simTime := ⟨t⟩
    pos := pos
    linearVel := vel
    gravity := ⟨0, 0, -981 / 100⟩ }

end gazebo

/-! ## Theorems -/

namespace gazebo

theorem copyAll_eq {α : Type} (v : List α) : copyAll v = v := by
  unfold copyAll
  exact List.ofFn_get v

/-- A number of seconds that is a whole number `n` of nanoseconds converts to the
time of `n` nanoseconds. -/
theorem Time.ofDouble_div {α : Type} [LinearOrderedField α] [FloorRing α] (n : Int) :
    Time.ofDouble ((n : α) / 1000000000) = ⟨n⟩ := by
  unfold Time.ofDouble
  congr 1
  have h : ((n : α) / 1000000000 - (⌊(n : α) / 1000000000⌋ : α)) * 1000000000
      = ((n - ⌊(n : α) / 1000000000⌋ * 1000000000 : Int) : α) := by
    push_cast
    field_simp
    ring
  rw [h, round_intCast]
  ring

/-- The loop of `MavlinkControlCallback` stays inside the eight channels when it
runs at most eight times. -/
theorem MavlinkControlCallback.loop_total {α : Type} [LinearOrderedField α]
    (c0 c1 c2 c3 c4 c5 c6 c7 scaling offset : α) (n : Nat) (hn : n ≤ 8) :
    (MavlinkControlCallback.loop [c0, c1, c2, c3, c4, c5, c6, c7] scaling offset 0 n).isSome
      = true := by
  interval_cases n <;> simp [MavlinkControlCallback.loop]

/-- C1: a control packet that converts, with rotor count 4, leaves the
actuator-command buffer with exactly four entries, entry `i` being
`c[i] * 340 + 500` for the first four channels `c[0..3]` of the decoded packet
(roll_ailerons, pitch_elevator, yaw_rudder, throttle); the auxiliary channels and
the previous buffer do not occur in the result.  A channel value `0` gives `500`
and a channel value `1` gives `840`. -/
theorem MavlinkControlCallback_converted {α : Type} [LinearOrderedField α] [FloorRing α]
    {R M : Type} (K : Codec R M α) (self : GazeboMavlinkInterface α) (rmsg : R) (mmsg : M)
    (hconv : K.convert rmsg = some mmsg) (hn : self._rotor_count = 4) :
    ∃ self1, MavlinkControlCallback K self rmsg = some (self1, []) ∧
      self1.input_reference_ =
        [(K.decode mmsg).roll_ailerons * 340 + 500, (K.decode mmsg).pitch_elevator * 340 + 500,
         (K.decode mmsg).yaw_rudder * 340 + 500, (K.decode mmsg).throttle * 340 + 500] ∧
      self1.input_reference_.length = 4 ∧
      self1.input_reference_ = ((channels (K.decode mmsg)).take 4).map (fun c => c * 340 + 500) ∧
      (∀ i c, i < 4 → (channels (K.decode mmsg))[i]? = some c →
        self1.input_reference_[i]? = some (c * 340 + 500)) ∧
      (∀ i, i < 4 → (channels (K.decode mmsg))[i]? = some 0 →
        self1.input_reference_[i]? = some 500) ∧
      (∀ i, i < 4 → (channels (K.decode mmsg))[i]? = some 1 →
        self1.input_reference_[i]? = some 840) := by
  have hbuf : ∀ i c, i < 4 → (channels (K.decode mmsg))[i]? = some c →
      [(K.decode mmsg).roll_ailerons * 340 + 500, (K.decode mmsg).pitch_elevator * 340 + 500,
       (K.decode mmsg).yaw_rudder * 340 + 500, (K.decode mmsg).throttle * 340 + 500][i]?
        = some (c * 340 + 500) := by
    intro i c hi hc
    interval_cases i <;> simp [channels] at hc ⊢ <;> rw [hc]
  refine ⟨{ self with
      inputs := ⟨channels (K.decode mmsg)⟩
      input_reference_ :=
        [(K.decode mmsg).roll_ailerons * 340 + 500, (K.decode mmsg).pitch_elevator * 340 + 500,
         (K.decode mmsg).yaw_rudder * 340 + 500, (K.decode mmsg).throttle * 340 + 500]
      received_first_referenc_ := true }, ?_, rfl, rfl, ?_, hbuf, ?_, ?_⟩
  · simp [MavlinkControlCallback, hconv, hn, MavlinkControlCallback.loop, CommandMotorMavros,
      copyAll_eq, channels]
  · simp [channels]
  · intro i hi h0
    have := hbuf i 0 hi h0
    simpa using this
  · intro i hi h1
    have := hbuf i 1 hi h1
    rw [this]
    norm_num

/-- C1, at a concrete packet: channels `0, 1, 1/2, -1` give the buffer
`500, 840, 670, 160`. -/
theorem MavlinkControlCallback_converted_witness :
    Codec.direct.convert (some mavlink_hil_controls_t.sample) = some mavlink_hil_controls_t.sample ∧
    (GazeboMavlinkInterface.ready false)._rotor_count = 4 ∧
    ∃ self1, MavlinkControlCallback Codec.direct (GazeboMavlinkInterface.ready false)
        (some mavlink_hil_controls_t.sample) = some (self1, []) ∧
      self1.input_reference_ = [500, 840, 670, 160] := by
  refine ⟨rfl, rfl, ?_⟩
  obtain ⟨self1, h1, h2, _⟩ := MavlinkControlCallback_converted Codec.direct
    (GazeboMavlinkInterface.ready false) (some mavlink_hil_controls_t.sample)
    mavlink_hil_controls_t.sample rfl rfl
  refine ⟨self1, h1, ?_⟩
  rw [h2]
  norm_num [Codec.direct, mavlink_hil_controls_t.sample]

/-- C2: a control packet whose conversion fails leaves the whole plugin object,
and so the actuator-command buffer and the flag `received_first_referenc_`, as
they were; the callback returns, and its only effect is the diagnostic line. -/
theorem MavlinkControlCallback_rejected {α : Type} [LinearOrderedField α] [FloorRing α]
    {R M : Type} (K : Codec R M α) (self : GazeboMavlinkInterface α) (rmsg : R)
    (hconv : K.convert rmsg = none) :
    ∃ self1 out, MavlinkControlCallback K self rmsg = some (self1, out) ∧
      self1 = self ∧
      self1.input_reference_ = self.input_reference_ ∧
      self1.input_reference_.length = self.input_reference_.length ∧
      self1.received_first_referenc_ = self.received_first_referenc_ ∧
      out = [Effect.cout "incorrect mavlink data\n"] := by
  refine ⟨self, _, ?_, rfl, rfl, rfl, rfl, rfl⟩
  simp [MavlinkControlCallback, hconv]

/-- C2, at a concrete packet: a packet that does not convert, received with the
buffer `1, 2, 3`, leaves the buffer `1, 2, 3`. -/
theorem MavlinkControlCallback_rejected_witness :
    Codec.direct.convert none = none ∧
    ∃ self1 out, MavlinkControlCallback Codec.direct
        { GazeboMavlinkInterface.ready true with input_reference_ := [1, 2, 3] } none
          = some (self1, out) ∧
      self1.input_reference_ = [1, 2, 3] ∧ self1.received_first_referenc_ = true ∧
      out = [Effect.cout "incorrect mavlink data\n"] := by
  refine ⟨rfl, ?_⟩
  obtain ⟨self1, out, h1, h2, _, _, _, h6⟩ := MavlinkControlCallback_rejected Codec.direct
    { GazeboMavlinkInterface.ready true with input_reference_ := [1, 2, 3] } none rfl
  refine ⟨self1, out, h1, ?_, ?_, h6⟩
  · rw [h2]
  · rw [h2]
    rfl


/-- A tick processed before any command was received does nothing. -/
theorem OnUpdate_idle {α : Type} [LinearOrderedField α] [FloorRing α] (L : Libm α)
    (self : GazeboMavlinkInterface α) (world : World α)
    (hflag : self.received_first_referenc_ = false) :
    OnUpdate L self world = (self, []) := by
  simp [OnUpdate, hflag]

/-- A tick with commands available and the GPS gate open. -/
theorem OnUpdate_open {α : Type} [LinearOrderedField α] [FloorRing α] (L : Libm α)
    (self : GazeboMavlinkInterface α) (world : World α)
    (hflag : self.received_first_referenc_ = true)
    (hgate : world.simTime - self.last_gps_time_ > Time.ofDouble self.gps_update_interval_) :
    OnUpdate L self world =
      ({ self with
          last_time_ := world.simTime
          hil_gps_msg_ := OnUpdate.hil_gps L world.simTime world.pos world.linearVel
          last_gps_time_ := world.simTime },
       [Effect.actuators ⟨self.input_reference_, world.simTime.sec, world.simTime.nsec⟩,
        Effect.hil_gps (OnUpdate.hil_gps L world.simTime world.pos world.linearVel)]) := by
  simp [OnUpdate, hflag, hgate, copyAll_eq]

/-- A tick with commands available and the GPS gate closed. -/
theorem OnUpdate_closed {α : Type} [LinearOrderedField α] [FloorRing α] (L : Libm α)
    (self : GazeboMavlinkInterface α) (world : World α)
    (hflag : self.received_first_referenc_ = true)
    (hgate : ¬ world.simTime - self.last_gps_time_ > Time.ofDouble self.gps_update_interval_) :
    OnUpdate L self world =
      ({ self with last_time_ := world.simTime },
       [Effect.actuators ⟨self.input_reference_, world.simTime.sec, world.simTime.nsec⟩]) := by
  simp [OnUpdate, hflag, hgate, copyAll_eq]

/-- The actuator-command messages of a tick. -/
theorem actuatorMessages_OnUpdate {α : Type} [LinearOrderedField α] [FloorRing α] (L : Libm α)
    (self : GazeboMavlinkInterface α) (world : World α) :
    actuatorMessages (OnUpdate L self world).2 =
      if self.received_first_referenc_ = true then
        [⟨self.input_reference_, world.simTime.sec, world.simTime.nsec⟩]
      else [] := by
  cases hflag : self.received_first_referenc_
  · simp [OnUpdate_idle L self world hflag, actuatorMessages]
  · by_cases hgate :
        world.simTime - self.last_gps_time_ > Time.ofDouble self.gps_update_interval_
    · simp [OnUpdate_open L self world hflag hgate, actuatorMessages]
    · simp [OnUpdate_closed L self world hflag hgate, actuatorMessages]

/-- The HIL GPS packets of a tick. -/
theorem gpsPackets_OnUpdate {α : Type} [LinearOrderedField α] [FloorRing α] (L : Libm α)
    (self : GazeboMavlinkInterface α) (world : World α) :
    gpsPackets (OnUpdate L self world).2 =
      if self.received_first_referenc_ = true ∧
          world.simTime - self.last_gps_time_ > Time.ofDouble self.gps_update_interval_ then
        [OnUpdate.hil_gps L world.simTime world.pos world.linearVel]
      else [] := by
  cases hflag : self.received_first_referenc_
  · simp [OnUpdate_idle L self world hflag, gpsPackets]
  · by_cases hgate :
        world.simTime - self.last_gps_time_ > Time.ofDouble self.gps_update_interval_
    · simp [OnUpdate_open L self world hflag hgate, gpsPackets, hgate]
    · simp [OnUpdate_closed L self world hflag hgate, gpsPackets, hgate]

/-- The GPS last-emit time after a tick. -/
theorem last_gps_time_OnUpdate {α : Type} [LinearOrderedField α] [FloorRing α] (L : Libm α)
    (self : GazeboMavlinkInterface α) (world : World α) :
    (OnUpdate L self world).1.last_gps_time_ =
      if self.received_first_referenc_ = true ∧
          world.simTime - self.last_gps_time_ > Time.ofDouble self.gps_update_interval_ then
        world.simTime
      else self.last_gps_time_ := by
  cases hflag : self.received_first_referenc_
  · simp [OnUpdate_idle L self world hflag]
  · by_cases hgate :
        world.simTime - self.last_gps_time_ > Time.ofDouble self.gps_update_interval_
    · simp [OnUpdate_open L self world hflag hgate, hgate]
    · simp [OnUpdate_closed L self world hflag hgate, hgate]

/-- A tick changes neither the flag, nor the rotor count, nor the gate interval. -/
theorem OnUpdate_frame {α : Type} [LinearOrderedField α] [FloorRing α] (L : Libm α)
    (self : GazeboMavlinkInterface α) (world : World α) :
    (OnUpdate L self world).1.received_first_referenc_ = self.received_first_referenc_ ∧
    (OnUpdate L self world).1._rotor_count = self._rotor_count ∧
    (OnUpdate L self world).1.gps_update_interval_ = self.gps_update_interval_ ∧
    (OnUpdate L self world).1.input_reference_ = self.input_reference_ := by
  cases hflag : self.received_first_referenc_
  · simp [OnUpdate_idle L self world hflag, hflag]
  · by_cases hgate :
        world.simTime - self.last_gps_time_ > Time.ofDouble self.gps_update_interval_
    · simp [OnUpdate_open L self world hflag hgate, hflag]
    · simp [OnUpdate_closed L self world hflag hgate, hflag]

/-- An inertial update changes only the sensor record and the noise distribution. -/
theorem ImuCallback_frame {α : Type} [LinearOrderedField α] [FloorRing α]
    (self : GazeboMavlinkInterface α) (world : World α) (imu_message : Imu α) (mag_noise : α) :
    (ImuCallback self world imu_message mag_noise).1.received_first_referenc_
      = self.received_first_referenc_ ∧
    (ImuCallback self world imu_message mag_noise).1._rotor_count = self._rotor_count ∧
    (ImuCallback self world imu_message mag_noise).1.last_gps_time_ = self.last_gps_time_ ∧
    (ImuCallback self world imu_message mag_noise).1.input_reference_ = self.input_reference_ ∧
    actuatorMessages (ImuCallback self world imu_message mag_noise).2 = [] ∧
    gpsPackets (ImuCallback self world imu_message mag_noise).2 = [] := by
  simp [ImuCallback, actuatorMessages, gpsPackets]

/-- A control packet, with at most eight rotors: the callback returns; it keeps
the rotor count and the GPS last-emit time, and the flag afterwards is set when it
was set before or the packet converted. -/
theorem MavlinkControlCallback_frame {α : Type} [LinearOrderedField α] [FloorRing α]
    {R M : Type} (K : Codec R M α) (self : GazeboMavlinkInterface α) (rmsg : R)
    (hn : self._rotor_count ≤ 8) :
    ∃ self1 out, MavlinkControlCallback K self rmsg = some (self1, out) ∧
      self1._rotor_count = self._rotor_count ∧
      self1.last_gps_time_ = self.last_gps_time_ ∧
      self1.received_first_referenc_
        = (self.received_first_referenc_ || (K.convert rmsg).isSome) := by
  cases hconv : K.convert rmsg with
  | none =>
    refine ⟨self, [Effect.cout "incorrect mavlink data\n"], ?_, rfl, rfl, by simp⟩
    simp [MavlinkControlCallback, hconv]
  | some mmsg =>
    have hk : self._rotor_count.toNat ≤ 8 := by omega
    have hloop := MavlinkControlCallback.loop_total (K.decode mmsg).roll_ailerons
      (K.decode mmsg).pitch_elevator (K.decode mmsg).yaw_rudder (K.decode mmsg).throttle
      (K.decode mmsg).aux1 (K.decode mmsg).aux2 (K.decode mmsg).aux3 (K.decode mmsg).aux4
      340 500 self._rotor_count.toNat hk
    obtain ⟨vs, hvs⟩ := Option.isSome_iff_exists.mp hloop
    refine ⟨CommandMotorMavros { self with inputs := ⟨channels (K.decode mmsg)⟩ } ⟨vs, 0, 0⟩, [],
      ?_, ?_, ?_, ?_⟩
    · simp only [MavlinkControlCallback, hconv, hvs, channels]
    · simp [CommandMotorMavros]
    · simp [CommandMotorMavros]
    · simp [CommandMotorMavros]

/-- Whatever a control packet does, it leaves the GPS last-emit time alone. -/
theorem MavlinkControlCallback_last_gps_time_ {α : Type} [LinearOrderedField α] [FloorRing α]
    {R M : Type} (K : Codec R M α) (self : GazeboMavlinkInterface α) (rmsg : R)
    (r : GazeboMavlinkInterface α × List (Effect α))
    (h : MavlinkControlCallback K self rmsg = some r) :
    r.1.last_gps_time_ = self.last_gps_time_ ∧ actuatorMessages r.2 = [] ∧ gpsPackets r.2 = [] := by
  unfold MavlinkControlCallback at h
  cases hconv : K.convert rmsg with
  | none =>
    simp [hconv] at h
    subst h
    simp [actuatorMessages, gpsPackets]
  | some mmsg =>
    simp only [hconv] at h
    split at h
    · simp at h
      subst h
      simp [CommandMotorMavros, actuatorMessages, gpsPackets]
    · simp at h

/-- The successful control decodes among a sequence of operations. -/
theorem run_flag {α : Type} [LinearOrderedField α] [FloorRing α] {R M : Type}
    (L : Libm α) (K : Codec R M α) (ops : List (Op R α)) :
    ∀ self : GazeboMavlinkInterface α, self._rotor_count ≤ 8 →
      ∃ self1 out, run L K self ops = some (self1, out) ∧
        self1._rotor_count = self._rotor_count ∧
        (self1.received_first_referenc_ = true ↔
          self.received_first_referenc_ = true ∨
            ∃ rmsg, Op.control rmsg ∈ ops ∧ (K.convert rmsg).isSome = true) := by
  induction ops with
  | nil =>
    intro self _
    exact ⟨self, [], rfl, rfl, by simp⟩
  | cons op ops ih =>
    intro self hn
    have hstep : ∃ s1 o1, step L K self op = some (s1, o1) ∧
        s1._rotor_count = self._rotor_count ∧
        (s1.received_first_referenc_ = true ↔
          self.received_first_referenc_ = true ∨
            ∃ rmsg, op = Op.control rmsg ∧ (K.convert rmsg).isSome = true) := by
      cases op with
      | tick world =>
        have hf := OnUpdate_frame L self world
        exact ⟨(OnUpdate L self world).1, (OnUpdate L self world).2, rfl, hf.2.1,
          by rw [hf.1]; simp⟩
      | imu world imu_message mag_noise =>
        have hf := ImuCallback_frame self world imu_message mag_noise
        exact ⟨(ImuCallback self world imu_message mag_noise).1,
          (ImuCallback self world imu_message mag_noise).2, rfl, hf.2.1, by rw [hf.1]; simp⟩
      | control rmsg =>
        obtain ⟨s1, o1, h1, h2, _, h4⟩ := MavlinkControlCallback_frame K self rmsg hn
        refine ⟨s1, o1, h1, h2, ?_⟩
        rw [h4]
        simp
    obtain ⟨s1, o1, h1, h2, h3⟩ := hstep
    obtain ⟨s2, o2, h4, h5, h6⟩ := ih s1 (by omega)
    refine ⟨s2, o1 ++ o2, ?_, by omega, ?_⟩
    · simp [run, h1, h4]
    · rw [h6, h3]
      constructor
      · rintro ((h | ⟨rmsg, rfl, hr⟩) | ⟨rmsg, hm, hr⟩)
        · exact Or.inl h
        · exact Or.inr ⟨rmsg, by simp, hr⟩
        · exact Or.inr ⟨rmsg, by simp [hm], hr⟩
      · rintro (h | ⟨rmsg, hm, hr⟩)
        · exact Or.inl (Or.inl h)
        · rcases List.mem_cons.mp hm with rfl | hm
          · exact Or.inl (Or.inr ⟨rmsg, rfl, hr⟩)
          · exact Or.inr ⟨rmsg, hm, hr⟩

/-- C3: start with the flag `received_first_referenc_` false (and at most eight
rotors) and run any finite sequence of ticks, inertial updates and control
packets.  The sequence runs to its end; the flag is then true exactly when some
control packet of the sequence converted, and a tick that follows emits an
actuator-command message exactly in that case. -/
theorem actuators_iff_decoded {α : Type} [LinearOrderedField α] [FloorRing α] {R M : Type}
    (L : Libm α) (K : Codec R M α) (self : GazeboMavlinkInterface α) (ops : List (Op R α))
    (world : World α) (hflag : self.received_first_referenc_ = false)
    (hn : self._rotor_count ≤ 8) :
    ∃ self1 out, run L K self ops = some (self1, out) ∧
      (self1.received_first_referenc_ = true ↔
        ∃ rmsg, Op.control rmsg ∈ ops ∧ (K.convert rmsg).isSome = true) ∧
      (actuatorMessages (OnUpdate L self1 world).2 ≠ [] ↔
        ∃ rmsg, Op.control rmsg ∈ ops ∧ (K.convert rmsg).isSome = true) ∧
      ((actuatorMessages (OnUpdate L self1 world).2).length = 1 ↔
        ∃ rmsg, Op.control rmsg ∈ ops ∧ (K.convert rmsg).isSome = true) := by
  obtain ⟨self1, out, h1, _, h3⟩ := run_flag L K ops self hn
  have h4 : self1.received_first_referenc_ = true ↔
      ∃ rmsg, Op.control rmsg ∈ ops ∧ (K.convert rmsg).isSome = true := by
    rw [h3, hflag]
    simp
  refine ⟨self1, out, h1, h4, ?_, ?_⟩
  · rw [← h4, actuatorMessages_OnUpdate]
    cases self1.received_first_referenc_ <;> simp
  · rw [← h4, actuatorMessages_OnUpdate]
    cases self1.received_first_referenc_ <;> simp


/-- C3, at a concrete sequence: a tick, a packet that fails to convert and a
packet that converts, from a fresh object; the next tick emits an
actuator-command message. -/
theorem actuators_iff_decoded_witness :
    (GazeboMavlinkInterface.ready false).received_first_referenc_ = false ∧
    (GazeboMavlinkInterface.ready false)._rotor_count ≤ 8 ∧
    ∃ self1 out, run Libm.rational Codec.direct (GazeboMavlinkInterface.ready false)
        [Op.tick (World.atRest 0), Op.control none,
         Op.control (some mavlink_hil_controls_t.sample)] = some (self1, out) ∧
      self1.received_first_referenc_ = true ∧
      actuatorMessages (OnUpdate Libm.rational self1 (World.atRest 1)).2 ≠ [] := by
  refine ⟨rfl, by decide, ?_⟩
  obtain ⟨self1, out, h1, h2, h3, _⟩ := actuators_iff_decoded Libm.rational Codec.direct
    (GazeboMavlinkInterface.ready false)
    [Op.tick (World.atRest 0), Op.control none, Op.control (some mavlink_hil_controls_t.sample)]
    (World.atRest 1) rfl (by decide)
  have hex : ∃ rmsg, Op.control rmsg ∈
      ([Op.tick (World.atRest 0), Op.control none,
        Op.control (some mavlink_hil_controls_t.sample)] :
          List (Op (Option (mavlink_hil_controls_t ℚ)) ℚ)) ∧
      (Codec.direct.convert rmsg).isSome = true :=
    ⟨some mavlink_hil_controls_t.sample, by simp, rfl⟩
  exact ⟨self1, out, h1, h2.mpr hex, h3.mpr hex⟩

/-- C4: every actuator-command message that a tick emits carries the
actuator-command buffer, element for element and so of the same length, and the
stamp `(sec, nsec)` of the simulation time of that tick; after a control packet
with channels `c` was decoded for four rotors, the tick emits exactly the message
`[c0 * 340 + 500, c1 * 340 + 500, c2 * 340 + 500, c3 * 340 + 500]`. -/
theorem OnUpdate_actuators {α : Type} [LinearOrderedField α] [FloorRing α] {R M : Type}
    (L : Libm α) (K : Codec R M α) :
    (∀ (self : GazeboMavlinkInterface α) (world : World α) (msg : Actuators α),
      msg ∈ actuatorMessages (OnUpdate L self world).2 →
        msg.angular_velocities = self.input_reference_ ∧
        msg.angular_velocities.length = self.input_reference_.length ∧
        (∀ i : Nat, msg.angular_velocities[i]? = self.input_reference_[i]?) ∧
        msg.stamp_sec = world.simTime.sec ∧ msg.stamp_nsec = world.simTime.nsec) ∧
    (∀ (self : GazeboMavlinkInterface α) (rmsg : R) (mmsg : M) (world : World α),
      K.convert rmsg = some mmsg → self._rotor_count = 4 →
        ∃ self1, MavlinkControlCallback K self rmsg = some (self1, []) ∧
          actuatorMessages (OnUpdate L self1 world).2 =
            [{ angular_velocities :=
                [(K.decode mmsg).roll_ailerons * 340 + 500,
                 (K.decode mmsg).pitch_elevator * 340 + 500,
                 (K.decode mmsg).yaw_rudder * 340 + 500,
                 (K.decode mmsg).throttle * 340 + 500]
               stamp_sec := world.simTime.sec
               stamp_nsec := world.simTime.nsec }]) := by
  constructor
  · intro self world msg hmsg
    rw [actuatorMessages_OnUpdate] at hmsg
    split at hmsg
    · simp at hmsg
      subst hmsg
      simp
    · simp at hmsg
  · intro self rmsg mmsg world hconv hn
    obtain ⟨self1, h1, h2, _⟩ := MavlinkControlCallback_converted K self rmsg mmsg hconv hn
    obtain ⟨s, o, h3, _, _, h4⟩ := MavlinkControlCallback_frame K self rmsg (by omega)
    rw [h1] at h3
    simp only [Option.some.injEq, Prod.mk.injEq] at h3
    obtain ⟨rfl, _⟩ := h3
    have hflag : self1.received_first_referenc_ = true := by
      rw [h4, hconv]
      simp
    refine ⟨self1, h1, ?_⟩
    rw [actuatorMessages_OnUpdate, if_pos hflag, h2]

/-- C4, at a concrete tick: after the packet with channels `0, 1, 1/2, -1` the
tick at 1.5 s emits `500, 840, 670, 160` stamped `(1, 500000000)`. -/
theorem OnUpdate_actuators_witness :
    Codec.direct.convert (some mavlink_hil_controls_t.sample) = some mavlink_hil_controls_t.sample ∧
    (GazeboMavlinkInterface.ready false)._rotor_count = 4 ∧
    ∃ self1, MavlinkControlCallback Codec.direct (GazeboMavlinkInterface.ready false)
        (some mavlink_hil_controls_t.sample) = some (self1, []) ∧
      actuatorMessages (OnUpdate Libm.rational self1 (World.atRest 1500000000)).2 =
        [{ angular_velocities := [500, 840, 670, 160]
           stamp_sec := 1
           stamp_nsec := 500000000 }] := by
  refine ⟨rfl, rfl, ?_⟩
  obtain ⟨self1, h1, h2⟩ := (OnUpdate_actuators Libm.rational Codec.direct).2
    (GazeboMavlinkInterface.ready false) (some mavlink_hil_controls_t.sample)
    mavlink_hil_controls_t.sample (World.atRest 1500000000) rfl rfl
  refine ⟨self1, h1, ?_⟩
  rw [h2]
  norm_num [Codec.direct, mavlink_hil_controls_t.sample, World.atRest, Time.sec, Time.nsec]

/-- C5, as stated, fails: with no command received yet, a tick one second after
the last GPS emission, with a gate interval of 0.2 s, satisfies the time
comparison and emits no GPS packet. -/
theorem gps_gate_alone_refuted :
    ((World.atRest 1000000000).simTime - (GazeboMavlinkInterface.ready false).last_gps_time_
        > Time.ofDouble (GazeboMavlinkInterface.ready false).gps_update_interval_) ∧
    gpsPackets (OnUpdate Libm.rational (GazeboMavlinkInterface.ready false)
      (World.atRest 1000000000)).2 = [] := by
  constructor
  · have h : (GazeboMavlinkInterface.ready false).gps_update_interval_
        = ((200000000 : Int) : ℚ) / 1000000000 := by
      norm_num [GazeboMavlinkInterface.ready]
    rw [h, Time.ofDouble_div]
    decide
  · rw [OnUpdate_idle _ _ _ rfl]
    rfl

/-- C5, amended: a tick emits a HIL GPS packet (one, and no more) if and only if
commands are available and `now - lastEmit > I`, where `I` is the time made from
`gps_update_interval_`; the decision depends on the flag and on this comparison
only. -/
theorem gps_gate {α : Type} [LinearOrderedField α] [FloorRing α] (L : Libm α)
    (self : GazeboMavlinkInterface α) (world : World α) :
    (gpsPackets (OnUpdate L self world).2 ≠ [] ↔
      self.received_first_referenc_ = true ∧
        world.simTime - self.last_gps_time_ > Time.ofDouble self.gps_update_interval_) ∧
    ((gpsPackets (OnUpdate L self world).2).length = 1 ↔
      self.received_first_referenc_ = true ∧
        world.simTime - self.last_gps_time_ > Time.ofDouble self.gps_update_interval_) ∧
    (gpsPackets (OnUpdate L self world).2).length ≤ 1 := by
  rw [gpsPackets_OnUpdate]
  split <;> simp_all


theorem Time.sub_ns (a b : Time) : (a - b).ns = a.ns - b.ns := rfl

theorem Time.add_ns (a b : Time) : (a + b).ns = a.ns + b.ns := rfl

theorem Time.lt_iff (a b : Time) : a < b ↔ a.ns < b.ns := Iff.rfl

theorem Time.le_iff (a b : Time) : a ≤ b ↔ a.ns ≤ b.ns := Iff.rfl

/-- A tick whose time comparison fails emits no GPS packet. -/
theorem gpsPackets_OnUpdate_closed {α : Type} [LinearOrderedField α] [FloorRing α] (L : Libm α)
    (self : GazeboMavlinkInterface α) (world : World α)
    (hgate : ¬ world.simTime - self.last_gps_time_ > Time.ofDouble self.gps_update_interval_) :
    gpsPackets (OnUpdate L self world).2 = [] := by
  rw [gpsPackets_OnUpdate, if_neg]
  exact fun h => hgate h.2

/-- C6: a tick with `now - lastEmit ≤ I` emits no GPS packet; so a tick at
exactly `now = lastEmit + I` emits none, and, for `I ≥ 0`, a tick whose time lies
before the last emission emits none.  `OnUpdate` is a total function: it returns
in each of these cases. -/
theorem gps_gate_closed {α : Type} [LinearOrderedField α] [FloorRing α] (L : Libm α)
    (self : GazeboMavlinkInterface α) (world : World α) :
    (world.simTime - self.last_gps_time_ ≤ Time.ofDouble self.gps_update_interval_ →
      gpsPackets (OnUpdate L self world).2 = []) ∧
    (world.simTime = self.last_gps_time_ + Time.ofDouble self.gps_update_interval_ →
      gpsPackets (OnUpdate L self world).2 = []) ∧
    ((⟨0⟩ : Time) ≤ Time.ofDouble self.gps_update_interval_ →
      world.simTime < self.last_gps_time_ →
        gpsPackets (OnUpdate L self world).2 = []) := by
  refine ⟨fun h => ?_, fun h => ?_, fun hI h => ?_⟩
  · apply gpsPackets_OnUpdate_closed
    rw [gt_iff_lt, Time.lt_iff]
    rw [Time.le_iff] at h
    omega
  · apply gpsPackets_OnUpdate_closed
    rw [gt_iff_lt, Time.lt_iff, h, Time.sub_ns, Time.add_ns]
    omega
  · apply gpsPackets_OnUpdate_closed
    rw [gt_iff_lt, Time.lt_iff, Time.sub_ns]
    rw [Time.le_iff] at hI
    rw [Time.lt_iff] at h
    have h0 : (⟨0⟩ : Time).ns = 0 := rfl
    omega

/-- The time made from the interval `0.2` is 200 ms. -/
theorem ready_gps_update (received : Bool) :
    Time.ofDouble (GazeboMavlinkInterface.ready received).gps_update_interval_
      = ⟨200000000⟩ := by
  have h : (GazeboMavlinkInterface.ready received).gps_update_interval_
      = ((200000000 : Int) : ℚ) / 1000000000 := by
    norm_num [GazeboMavlinkInterface.ready]
  rw [h, Time.ofDouble_div]

/-- C6, at concrete ticks: with commands available, the last emission at 1 s and
the interval 200 ms, neither the tick at exactly 1.2 s nor the tick at 0.5 s
emits a GPS packet. -/
theorem gps_gate_closed_witness :
    ((World.atRest 1200000000).simTime =
        (⟨1000000000⟩ : Time) + Time.ofDouble (GazeboMavlinkInterface.ready true).gps_update_interval_ ∧
      gpsPackets (OnUpdate Libm.rational
        { GazeboMavlinkInterface.ready true with last_gps_time_ := ⟨1000000000⟩ }
        (World.atRest 1200000000)).2 = []) ∧
    ((World.atRest 500000000).simTime < (⟨1000000000⟩ : Time) ∧
      gpsPackets (OnUpdate Libm.rational
        { GazeboMavlinkInterface.ready true with last_gps_time_ := ⟨1000000000⟩ }
        (World.atRest 500000000)).2 = []) := by
  have hI : Time.ofDouble
      ({ GazeboMavlinkInterface.ready true with
          last_gps_time_ := ⟨1000000000⟩ } : GazeboMavlinkInterface ℚ).gps_update_interval_
        = ⟨200000000⟩ := ready_gps_update true
  have h1 : (World.atRest 1200000000).simTime =
      (⟨1000000000⟩ : Time)
        + Time.ofDouble (GazeboMavlinkInterface.ready true).gps_update_interval_ := by
    rw [ready_gps_update]
    rfl
  have h2 : (World.atRest 500000000).simTime < (⟨1000000000⟩ : Time) := by decide
  refine ⟨⟨h1, ?_⟩, ⟨h2, ?_⟩⟩
  · exact (gps_gate_closed Libm.rational
      { GazeboMavlinkInterface.ready true with last_gps_time_ := ⟨1000000000⟩ }
      (World.atRest 1200000000)).2.1 h1
  · refine (gps_gate_closed Libm.rational
      { GazeboMavlinkInterface.ready true with last_gps_time_ := ⟨1000000000⟩ }
      (World.atRest 500000000)).2.2 ?_ h2
    rw [hI]
    decide

/-- C7: after a tick the GPS last-emit time is the time of the tick when the tick
emitted a GPS packet, and its value before the tick otherwise; a tick emits at
most one GPS packet; an inertial update leaves the last-emit time alone, and so
does a control packet, whose callback returns whenever there are at most eight
rotors. -/
theorem last_gps_time_frame {α : Type} [LinearOrderedField α] [FloorRing α] {R M : Type}
    (L : Libm α) (K : Codec R M α) (self : GazeboMavlinkInterface α) :
    (∀ world : World α,
      (OnUpdate L self world).1.last_gps_time_ =
        (if gpsPackets (OnUpdate L self world).2 ≠ [] then world.simTime
         else self.last_gps_time_) ∧
      (gpsPackets (OnUpdate L self world).2).length ≤ 1) ∧
    (∀ (world : World α) (imu_message : Imu α) (mag_noise : α),
      (ImuCallback self world imu_message mag_noise).1.last_gps_time_ = self.last_gps_time_) ∧
    (∀ rmsg : R,
      (∀ r, MavlinkControlCallback K self rmsg = some r →
        r.1.last_gps_time_ = self.last_gps_time_) ∧
      (self._rotor_count ≤ 8 → (MavlinkControlCallback K self rmsg).isSome = true)) := by
  refine ⟨fun world => ⟨?_, (gps_gate L self world).2.2⟩, fun world imu_message mag_noise => ?_,
    fun rmsg => ⟨fun r hr => ?_, fun hn => ?_⟩⟩
  · rw [last_gps_time_OnUpdate, gpsPackets_OnUpdate]
    split <;> simp
  · exact (ImuCallback_frame self world imu_message mag_noise).2.2.1
  · exact (MavlinkControlCallback_last_gps_time_ K self rmsg r hr).1
  · obtain ⟨s, o, h, _⟩ := MavlinkControlCallback_frame K self rmsg hn
    rw [h]
    rfl

/-- C7, at concrete operations: from the last emission at 0 with the interval
200 ms, a tick at 1 s moves the last-emit time to 1 s, a tick at 0.1 s leaves it at
0, and a converted control packet returns and leaves it at 0. -/
theorem last_gps_time_frame_witness :
    (OnUpdate Libm.rational (GazeboMavlinkInterface.ready true)
      (World.atRest 1000000000)).1.last_gps_time_ = ⟨1000000000⟩ ∧
    (OnUpdate Libm.rational (GazeboMavlinkInterface.ready true)
      (World.atRest 100000000)).1.last_gps_time_ = ⟨0⟩ ∧
    (MavlinkControlCallback Codec.direct (GazeboMavlinkInterface.ready true)
        (some mavlink_hil_controls_t.sample)).map (fun r => r.1.last_gps_time_)
      = some ⟨0⟩ := by
  have h := last_gps_time_frame Libm.rational Codec.direct (GazeboMavlinkInterface.ready true)
  have hI := ready_gps_update true
  refine ⟨?_, ?_, ?_⟩
  · rw [(h.1 (World.atRest 1000000000)).1, gpsPackets_OnUpdate, hI]
    rfl
  · rw [(h.1 (World.atRest 100000000)).1, gpsPackets_OnUpdate, hI]
    rfl
  · have hsome := (h.2.2 (some mavlink_hil_controls_t.sample)).2 (by decide)
    obtain ⟨r, hr⟩ := Option.isSome_iff_exists.mp hsome
    rw [hr, Option.map_some', (h.2.2 (some mavlink_hil_controls_t.sample)).1 r hr]
    rfl


theorem gpsPackets_append {α : Type} (a b : List (Effect α)) :
    gpsPackets (a ++ b) = gpsPackets a ++ gpsPackets b := by
  induction a with
  | nil => rfl
  | cons e a ih => cases e <;> simp [gpsPackets, ih]

/-- C8, as stated, fails: with commands available, the last emission at 0, the
interval `I` = 200 ms and `eps` = 1 ms, the ticks at 0, at `I/2` = 100 ms and at
`I/2 + eps` = 101 ms emit no GPS packet at all. -/
theorem gps_three_ticks_refuted :
    Time.ofDouble (GazeboMavlinkInterface.ready true).gps_update_interval_ = ⟨200000000⟩ ∧
    (GazeboMavlinkInterface.ready true).last_gps_time_ = ⟨0⟩ ∧
    (GazeboMavlinkInterface.ready true).received_first_referenc_ = true ∧
    (run Libm.rational Codec.direct (GazeboMavlinkInterface.ready true)
      [Op.tick (World.atRest 0), Op.tick (World.atRest (200000000 / 2)),
       Op.tick (World.atRest (200000000 / 2 + 1000000))]).map (fun r => gpsPackets r.2)
      = some [] := by
  refine ⟨ready_gps_update true, rfl, rfl, ?_⟩
  have hI := ready_gps_update true
  have c0 : ¬ (World.atRest 0).simTime - (GazeboMavlinkInterface.ready true).last_gps_time_
      > Time.ofDouble (GazeboMavlinkInterface.ready true).gps_update_interval_ := by
    rw [hI]
    decide
  have e0 := OnUpdate_closed Libm.rational (GazeboMavlinkInterface.ready true)
    (World.atRest 0) rfl c0
  have c1 : ¬ (World.atRest (200000000 / 2)).simTime
      - ({ GazeboMavlinkInterface.ready true with
            last_time_ := (World.atRest 0).simTime } : GazeboMavlinkInterface ℚ).last_gps_time_
      > Time.ofDouble ({ GazeboMavlinkInterface.ready true with
            last_time_ := (World.atRest 0).simTime } :
              GazeboMavlinkInterface ℚ).gps_update_interval_ := by
    rw [show Time.ofDouble ({ GazeboMavlinkInterface.ready true with
            last_time_ := (World.atRest 0).simTime } :
              GazeboMavlinkInterface ℚ).gps_update_interval_ = ⟨200000000⟩ from hI]
    decide
  have e1 := OnUpdate_closed Libm.rational _ (World.atRest (200000000 / 2)) rfl c1
  have c2 : ¬ (World.atRest (200000000 / 2 + 1000000)).simTime
      - ({ ({ GazeboMavlinkInterface.ready true with
            last_time_ := (World.atRest 0).simTime } : GazeboMavlinkInterface ℚ) with
            last_time_ := (World.atRest (200000000 / 2)).simTime } :
              GazeboMavlinkInterface ℚ).last_gps_time_
      > Time.ofDouble ({ ({ GazeboMavlinkInterface.ready true with
            last_time_ := (World.atRest 0).simTime } : GazeboMavlinkInterface ℚ) with
            last_time_ := (World.atRest (200000000 / 2)).simTime } :
              GazeboMavlinkInterface ℚ).gps_update_interval_ := by
    rw [show Time.ofDouble ({ ({ GazeboMavlinkInterface.ready true with
            last_time_ := (World.atRest 0).simTime } : GazeboMavlinkInterface ℚ) with
            last_time_ := (World.atRest (200000000 / 2)).simTime } :
              GazeboMavlinkInterface ℚ).gps_update_interval_ = ⟨200000000⟩ from hI]
    decide
  have e2 := OnUpdate_closed Libm.rational _ (World.atRest (200000000 / 2 + 1000000)) rfl c2
  simp only [run, step, e0, e1, e2]
  rfl


/-- C8, amended: with commands available, the last emission at 0, a gate
interval `I > 0` and any `eps`, the ticks at 0 and at `I/2` emit no GPS packet,
and the tick at `I/2 + eps` emits one exactly when `I/2 + eps > I`, that is when
`eps` exceeds half the interval; for a smaller `eps` the three ticks emit no GPS
packet.  Times are in nanoseconds, `I/2` rounded down. -/
theorem gps_three_ticks {α : Type} [LinearOrderedField α] [FloorRing α] {R M : Type}
    (L : Libm α) (K : Codec R M α) (self : GazeboMavlinkInterface α) (w0 w1 w2 : World α)
    (i e : Int) (hflag : self.received_first_referenc_ = true)
    (hlast : self.last_gps_time_ = ⟨0⟩)
    (hI : Time.ofDouble self.gps_update_interval_ = ⟨i⟩) (hi : 0 < i)
    (h0 : w0.simTime = ⟨0⟩) (h1 : w1.simTime = ⟨i / 2⟩) (h2 : w2.simTime = ⟨i / 2 + e⟩) :
    gpsPackets (OnUpdate L self w0).2 = [] ∧
    gpsPackets (OnUpdate L (OnUpdate L self w0).1 w1).2 = [] ∧
    ((gpsPackets (OnUpdate L (OnUpdate L (OnUpdate L self w0).1 w1).1 w2).2).length = 1 ↔
      i < i / 2 + e) ∧
    (gpsPackets (OnUpdate L (OnUpdate L (OnUpdate L self w0).1 w1).1 w2).2 = [] ↔
      i / 2 + e ≤ i) ∧
    ∃ self3 out, run L K self [Op.tick w0, Op.tick w1, Op.tick w2] = some (self3, out) ∧
      (gpsPackets out).length = if i < i / 2 + e then 1 else 0 := by
  -- the first tick
  have c0 : ¬ w0.simTime - self.last_gps_time_ > Time.ofDouble self.gps_update_interval_ := by
    rw [gt_iff_lt, Time.lt_iff, Time.sub_ns, hI, h0, hlast]
    show ¬ i < 0 - 0
    omega
  have g0 : gpsPackets (OnUpdate L self w0).2 = [] := gpsPackets_OnUpdate_closed L self w0 c0
  have f0 := OnUpdate_frame L self w0
  have l0 : (OnUpdate L self w0).1.last_gps_time_ = ⟨0⟩ := by
    rw [last_gps_time_OnUpdate, if_neg (fun h => c0 h.2), hlast]
  have I0 : Time.ofDouble (OnUpdate L self w0).1.gps_update_interval_ = ⟨i⟩ := by
    rw [f0.2.2.1, hI]
  -- the second tick
  have c1 : ¬ w1.simTime - (OnUpdate L self w0).1.last_gps_time_
      > Time.ofDouble (OnUpdate L self w0).1.gps_update_interval_ := by
    rw [gt_iff_lt, Time.lt_iff, Time.sub_ns, I0, h1, l0]
    show ¬ i < i / 2 - 0
    omega
  have g1 : gpsPackets (OnUpdate L (OnUpdate L self w0).1 w1).2 = [] :=
    gpsPackets_OnUpdate_closed L _ w1 c1
  have f1 := OnUpdate_frame L (OnUpdate L self w0).1 w1
  have l1 : (OnUpdate L (OnUpdate L self w0).1 w1).1.last_gps_time_ = ⟨0⟩ := by
    rw [last_gps_time_OnUpdate, if_neg (fun h => c1 h.2), l0]
  have I1 : Time.ofDouble (OnUpdate L (OnUpdate L self w0).1 w1).1.gps_update_interval_
      = ⟨i⟩ := by
    rw [f1.2.2.1, I0]
  have r1 : (OnUpdate L (OnUpdate L self w0).1 w1).1.received_first_referenc_ = true := by
    rw [f1.1, f0.1, hflag]
  -- the third tick
  have c2 : (w2.simTime - (OnUpdate L (OnUpdate L self w0).1 w1).1.last_gps_time_
      > Time.ofDouble (OnUpdate L (OnUpdate L self w0).1 w1).1.gps_update_interval_)
        ↔ i < i / 2 + e := by
    rw [gt_iff_lt, Time.lt_iff, Time.sub_ns, I1, h2, l1]
    show i < i / 2 + e - 0 ↔ i < i / 2 + e
    omega
  have g2 := gps_gate L (OnUpdate L (OnUpdate L self w0).1 w1).1 w2
  have n2 : (gpsPackets (OnUpdate L (OnUpdate L (OnUpdate L self w0).1 w1).1 w2).2).length = 1
      ↔ i < i / 2 + e := by
    rw [g2.2.1, c2]
    simp [r1]
  have z2 : gpsPackets (OnUpdate L (OnUpdate L (OnUpdate L self w0).1 w1).1 w2).2 = []
      ↔ i / 2 + e ≤ i := by
    rw [← not_iff_not, ← ne_eq, g2.1, c2]
    simp [r1]
  refine ⟨g0, g1, n2, z2, (OnUpdate L (OnUpdate L (OnUpdate L self w0).1 w1).1 w2).1,
    (OnUpdate L self w0).2 ++ ((OnUpdate L (OnUpdate L self w0).1 w1).2
      ++ ((OnUpdate L (OnUpdate L (OnUpdate L self w0).1 w1).1 w2).2 ++ [])), rfl, ?_⟩
  rw [gpsPackets_append, gpsPackets_append, gpsPackets_append, g0, g1]
  by_cases h : i < i / 2 + e
  · rw [if_pos h]
    simpa [gpsPackets] using n2.mpr h
  · rw [if_neg h, z2.mpr (by omega)]
    rfl

/-- C8, amended, at concrete ticks: with the interval 200 ms, the ticks at 0, at
100 ms and at 100 ms + 150 ms emit one GPS packet, at the third tick. -/
theorem gps_three_ticks_witness :
    (GazeboMavlinkInterface.ready true).received_first_referenc_ = true ∧
    (GazeboMavlinkInterface.ready true).last_gps_time_ = ⟨0⟩ ∧
    Time.ofDouble (GazeboMavlinkInterface.ready true).gps_update_interval_ = ⟨200000000⟩ ∧
    gpsPackets (OnUpdate Libm.rational (GazeboMavlinkInterface.ready true) (World.atRest 0)).2
      = [] ∧
    gpsPackets (OnUpdate Libm.rational
      (OnUpdate Libm.rational (GazeboMavlinkInterface.ready true) (World.atRest 0)).1
      (World.atRest (200000000 / 2))).2 = [] ∧
    (gpsPackets (OnUpdate Libm.rational
      (OnUpdate Libm.rational
        (OnUpdate Libm.rational (GazeboMavlinkInterface.ready true) (World.atRest 0)).1
        (World.atRest (200000000 / 2))).1
      (World.atRest (200000000 / 2 + 150000000))).2).length = 1 := by
  have h := gps_three_ticks Libm.rational Codec.direct (GazeboMavlinkInterface.ready true)
    (World.atRest 0) (World.atRest (200000000 / 2)) (World.atRest (200000000 / 2 + 150000000))
    200000000 150000000 rfl rfl (ready_gps_update true) (by decide) rfl rfl rfl
  exact ⟨rfl, rfl, ready_gps_update true, h.1, h.2.1, h.2.2.1.mpr (by decide)⟩

/-- `Load` never assigns the member `gps_update_interval_`: the value
`200*1000000` goes to a local variable of the same name. -/
theorem Load_keeps_gps_update_interval_ {α : Type} [LinearOrderedField α] [FloorRing α]
    (self : GazeboMavlinkInterface α) (world : World α) :
    (Load self world).1.gps_update_interval_ = self.gps_update_interval_ ∧
    (Load self world).2.gps_update_interval_ = 200000000 := by
  constructor
  · rfl
  · simp only [Load]
    norm_num

/-- C9 fails on the code: `Load` leaves the member `gps_update_interval_` as it
was, here `0`, so that the gate of `OnUpdate` compares against the time `0` and
not against 200 ms: after `Load` at time 0 and one decoded control packet, the
ticks at 1 ms and at 2 ms both emit a GPS packet.  The value that `Load` puts in
its local variable, read as a number of seconds by `common::Time(double)`, is
`2 * 10 ^ 8` seconds. -/
theorem Load_gate_interval :
    (Load GazeboMavlinkInterface.blank (World.atRest 0)).1.gps_update_interval_ = 0 ∧
    Time.ofDouble (Load GazeboMavlinkInterface.blank (World.atRest 0)).1.gps_update_interval_
      = ⟨0⟩ ∧
    Time.ofDouble (Load GazeboMavlinkInterface.blank (World.atRest 0)).1.gps_update_interval_
      ≠ ⟨200000000⟩ ∧
    Time.ofDouble (Load GazeboMavlinkInterface.blank (World.atRest 0)).2.gps_update_interval_
      = ⟨200000000 * 1000000000⟩ ∧
    (run Libm.rational Codec.direct (Load GazeboMavlinkInterface.blank (World.atRest 0)).1
      [Op.control (some mavlink_hil_controls_t.sample), Op.tick (World.atRest 1000000),
       Op.tick (World.atRest 2000000)]).map (fun r => (gpsPackets r.2).length) = some 2 := by
  have hz : Time.ofDouble
      (Load GazeboMavlinkInterface.blank (World.atRest 0)).1.gps_update_interval_ = ⟨0⟩ := by
    have h : (Load GazeboMavlinkInterface.blank (World.atRest 0)).1.gps_update_interval_
        = ((0 : Int) : ℚ) / 1000000000 := by
      rw [(Load_keeps_gps_update_interval_ _ _).1]
      norm_num [GazeboMavlinkInterface.blank]
    rw [h, Time.ofDouble_div]
  have hl : Time.ofDouble
      (Load GazeboMavlinkInterface.blank (World.atRest 0)).2.gps_update_interval_
        = ⟨200000000 * 1000000000⟩ := by
    have h : (Load GazeboMavlinkInterface.blank (World.atRest 0)).2.gps_update_interval_
        = ((200000000 * 1000000000 : Int) : ℚ) / 1000000000 := by
      rw [(Load_keeps_gps_update_interval_ _ _).2]
      norm_num
    rw [h, Time.ofDouble_div]
  refine ⟨rfl, hz, ?_, hl, ?_⟩
  · rw [hz]
    decide
  · have hk : Time.ofDouble (0 : ℚ) = ⟨0⟩ := by
      have h := @Time.ofDouble_div ℚ _ _ 0
      simpa using h
    simp [run, step, MavlinkControlCallback, Codec.direct, Load, MavlinkControlCallback.loop,
      CommandMotorMavros, OnUpdate, copyAll_eq, gpsPackets, GazeboMavlinkInterface.blank,
      World.atRest, hk, Time.lt_iff, Time.sub_ns]


/-- C10: at the local position `x = 0`, `y = 0` the reprojection of `OnUpdate`
returns the reference latitude and longitude themselves (the square root of zero
being zero), and at every position each division that the reprojection
evaluates has a divisor different from zero: the quotient by `c` is taken in the
branch `c != 0.0` only, so the checked reprojection always returns, with the
value of the reprojection. -/
theorem reproject_origin {α : Type} [LinearOrderedField α] [FloorRing α] (L : Libm α)
    (hsqrt : L.sqrt 0 = 0) :
    (∀ z : α, OnUpdate.reproject L ⟨0, 0, z⟩ = (OnUpdate.lat_zurich L, OnUpdate.lon_zurich L)) ∧
    (∀ pos_W_I : Vector3 α,
      OnUpdate.reprojectChecked L pos_W_I = some (OnUpdate.reproject L pos_W_I)) := by
  constructor
  · intro z
    simp [OnUpdate.reproject, hsqrt]
  · intro pos_W_I
    have h180 : (180 : α) ≠ 0 := by norm_num
    have hR : (OnUpdate.earth_radius : α) ≠ 0 := by
      unfold OnUpdate.earth_radius
      norm_num
    by_cases hc : L.sqrt (pos_W_I.x / OnUpdate.earth_radius * (pos_W_I.x / OnUpdate.earth_radius)
        + -pos_W_I.y / OnUpdate.earth_radius * (-pos_W_I.y / OnUpdate.earth_radius)) = 0
    · simp [OnUpdate.reprojectChecked, OnUpdate.reproject, checkedDiv, h180, hR, hc,
        OnUpdate.lat_zurich, OnUpdate.lon_zurich]
    · simp [OnUpdate.reprojectChecked, OnUpdate.reproject, checkedDiv, h180, hR, hc,
        OnUpdate.lat_zurich, OnUpdate.lon_zurich]

/-- C10, with the rational stand-in for the math library: the origin is mapped to
the reference point, and the position `(1000, 0, 50)` is reprojected without a
division by zero. -/
theorem reproject_origin_witness :
    Libm.rational.sqrt 0 = 0 ∧
    OnUpdate.reproject Libm.rational ⟨0, 0, 50⟩
      = (OnUpdate.lat_zurich Libm.rational, OnUpdate.lon_zurich Libm.rational) ∧
    OnUpdate.reprojectChecked Libm.rational ⟨1000, 0, 50⟩
      = some (OnUpdate.reproject Libm.rational ⟨1000, 0, 50⟩) := by
  have hs : Libm.rational.sqrt 0 = 0 := by
    show Rat.sqrt 0 = 0
    simp
  exact ⟨hs, (reproject_origin Libm.rational hs).1 50,
    (reproject_origin Libm.rational hs).2 ⟨1000, 0, 50⟩⟩


/-- C19: a tick processed while `received_first_referenc_` is false returns at
once: it has no effect at all, so no actuator-command message and no HIL GPS
packet, however the time of the tick compares with the last GPS emission, and it
leaves the whole plugin object as it was, `last_time_` and `last_gps_time_`
included. -/
theorem OnUpdate_before_first_command {α : Type} [LinearOrderedField α] [FloorRing α]
    (L : Libm α) (self : GazeboMavlinkInterface α) (world : World α)
    (hflag : self.received_first_referenc_ = false) :
    OnUpdate L self world = (self, []) ∧
    (OnUpdate L self world).2 = [] ∧
    actuatorMessages (OnUpdate L self world).2 = [] ∧
    gpsPackets (OnUpdate L self world).2 = [] ∧
    (OnUpdate L self world).1 = self ∧
    (OnUpdate L self world).1.last_time_ = self.last_time_ ∧
    (OnUpdate L self world).1.last_gps_time_ = self.last_gps_time_ := by
  have h : OnUpdate L self world = (self, []) := by
    unfold OnUpdate
    rw [hflag]
    rfl
  rw [h]
  exact ⟨rfl, rfl, rfl, rfl, rfl, rfl, rfl⟩

/-- C19, at a concrete tick: with no command received, the tick one second after
the last GPS emission (interval 0.2 s) has no effect and leaves `last_time_` and
`last_gps_time_` at 0. -/
theorem OnUpdate_before_first_command_witness :
    (GazeboMavlinkInterface.ready false).received_first_referenc_ = false ∧
    (OnUpdate Libm.rational (GazeboMavlinkInterface.ready false) (World.atRest 1000000000)).2
      = [] ∧
    (OnUpdate Libm.rational (GazeboMavlinkInterface.ready false)
      (World.atRest 1000000000)).1.last_time_ = ⟨0⟩ ∧
    (OnUpdate Libm.rational (GazeboMavlinkInterface.ready false)
      (World.atRest 1000000000)).1.last_gps_time_ = ⟨0⟩ := by
  have h := OnUpdate_before_first_command Libm.rational (GazeboMavlinkInterface.ready false)
    (World.atRest 1000000000) rfl
  refine ⟨rfl, h.2.1, ?_, ?_⟩
  · rw [h.2.2.2.2.2.1]
    rfl
  · rw [h.2.2.2.2.2.2]
    rfl

/-- The `time_usec` that the callbacks write: the nanoseconds field times 1000,
in the arithmetic of the field's type. -/
theorem time_usec_eq {α : Type} [LinearOrderedField α] [FloorRing α] (L : Libm α)
    (self : GazeboMavlinkInterface α) (world : World α) (imu_message : Imu α) (mag_noise : α)
    (current_time : Time) (pos_W_I velocity_current_W : Vector3 α) :
    (OnUpdate.hil_gps L current_time pos_W_I velocity_current_W).time_usec
      = toUnsigned 64 (toSigned 32 (current_time.nsec * 1000)) ∧
    (ImuCallback self world imu_message mag_noise).1.hil_sensor_msg_.time_usec
      = toUnsigned 64 (toUnsigned 32 (imu_message.stamp_nsec * 1000)) ∧
    (ImuCallback self world imu_message mag_noise).2
      = [Effect.hil_sensor (ImuCallback self world imu_message mag_noise).1.hil_sensor_msg_] :=
  ⟨rfl, rfl, rfl⟩

/-- C13 fails on the code: both packets take `time_usec` to be the nanoseconds
field times 1000, with the seconds left out.  At the time `(s, n) = (2, 5000)`,
which is 2000005 microseconds, the HIL GPS packet of the tick and the HIL sensor
packet of the inertial update both carry `time_usec = 5000000`. -/
theorem time_usec_not_microseconds :
    (World.atRest 2000005000).simTime.sec = 2 ∧
    (World.atRest 2000005000).simTime.nsec = 5000 ∧
    (gpsPackets (OnUpdate Libm.rational (GazeboMavlinkInterface.ready true)
      (World.atRest 2000005000)).2).map (fun msg => msg.time_usec) = [5000000] ∧
    Imu.sample.stamp_sec = 2 ∧ Imu.sample.stamp_nsec = 5000 ∧
    (ImuCallback (GazeboMavlinkInterface.ready true) (World.atRest 2000005000) Imu.sample
      0).1.hil_sensor_msg_.time_usec = 5000000 ∧
    (2 : Int) * 1000000 + 5000 / 1000 = 2000005 ∧
    (5000000 : Int) ≠ 2000005 := by
  have hgate : (World.atRest 2000005000).simTime
      - (GazeboMavlinkInterface.ready true).last_gps_time_
        > Time.ofDouble (GazeboMavlinkInterface.ready true).gps_update_interval_ := by
    rw [ready_gps_update]
    decide
  refine ⟨by decide, by decide, ?_, rfl, rfl, ?_, by decide, by decide⟩
  · rw [gpsPackets_OnUpdate, if_pos ⟨rfl, hgate⟩]
    simp only [List.map_cons, List.map_nil]
    rw [(time_usec_eq Libm.rational (GazeboMavlinkInterface.ready true)
      (World.atRest 2000005000) Imu.sample 0 _ _ _).1]
    decide
  · rw [(time_usec_eq Libm.rational (GazeboMavlinkInterface.ready true)
      (World.atRest 2000005000) Imu.sample 0 ⟨0⟩ ⟨0, 0, 0⟩ ⟨0, 0, 0⟩).2.1]
    decide

/-- C14 fails on the code: every inertial update gives `fields_updated` the same
constant, but the constant is 4095, which has the twelve bits 0 to 11 set and
bit 12, the bit of `temperature`, clear; the all-fields mask of the thirteen
sensor fields, written `0b1111111111111` in the comment of that very line, is
8191. -/
theorem fields_updated_twelve_bits {α : Type} [LinearOrderedField α] [FloorRing α]
    (self : GazeboMavlinkInterface α) (world : World α) (imu_message : Imu α) (mag_noise : α) :
    (ImuCallback self world imu_message mag_noise).1.hil_sensor_msg_.fields_updated = 4095 ∧
    (ImuCallback self world imu_message mag_noise).2
      = [Effect.hil_sensor (ImuCallback self world imu_message mag_noise).1.hil_sensor_msg_] ∧
    (4095 : Int) = 2 ^ 12 - 1 ∧
    (0b1111111111111 : Int) = 2 ^ 13 - 1 ∧
    (0b1111111111111 : Int) = 8191 ∧
    (ImuCallback self world imu_message mag_noise).1.hil_sensor_msg_.fields_updated
      ≠ 0b1111111111111 ∧
    (ImuCallback self world imu_message mag_noise).1.hil_sensor_msg_.fields_updated / 2 ^ 12 % 2
      = 0 := by
  have h : (ImuCallback self world imu_message mag_noise).1.hil_sensor_msg_.fields_updated
      = 4095 := rfl
  rw [h]
  exact ⟨rfl, rfl, by decide, by decide, by decide, by decide, by decide⟩


/-- The reverse rotation is linear in the vector: it commutes with negation. -/
theorem Quaternion.RotateVectorReverse_neg {α : Type} [LinearOrderedField α] (q : Quaternion α)
    (v : Vector3 α) :
    (q.RotateVectorReverse ⟨-v.x, -v.y, -v.z⟩).x = -(q.RotateVectorReverse v).x := by
  simp only [Quaternion.RotateVectorReverse, Quaternion.mul]
  ring

/-- The x component of a vector rotated by the conjugate of `q`, written out in
the coordinates of `q` (the first row of the transposed rotation matrix, before the
division by the squared norm). -/
theorem Quaternion.conj_rotate_x {α : Type} [LinearOrderedField α] (q : Quaternion α)
    (v : Vector3 α) :
    (q.conj.rotate v).x
      = (q.w * q.w + q.x * q.x - q.y * q.y - q.z * q.z) * v.x
        + 2 * (q.x * q.y + q.w * q.z) * v.y + 2 * (q.x * q.z - q.w * q.y) * v.z := by
  simp only [Quaternion.rotate, Quaternion.mul, Quaternion.conj]
  ring

/-- The reverse rotation of a quaternion whose squared norm `s` is not (within
`1e-6` of) zero: the rotation by the conjugate, divided by `s`. -/
theorem Quaternion.RotateVectorReverse_x {α : Type} [LinearOrderedField α] (q : Quaternion α)
    (v : Vector3 α)
    (hs : 1 / 1000000 < q.w * q.w + q.x * q.x + q.y * q.y + q.z * q.z) :
    (q.RotateVectorReverse v).x
      = (q.conj.rotate v).x / (q.w * q.w + q.x * q.x + q.y * q.y + q.z * q.z) := by
  have hpos : 0 < q.w * q.w + q.x * q.x + q.y * q.y + q.z * q.z :=
    lt_trans (by norm_num) hs
  have hne : q.w * q.w + q.x * q.x + q.y * q.y + q.z * q.z ≠ 0 := hpos.ne'
  have h : ¬ |q.w * q.w + q.x * q.x + q.y * q.y + q.z * q.z - 0| ≤ 1 / 1000000 := by
    rw [sub_zero, abs_of_pos hpos]
    exact not_le.mpr hs
  simp only [Quaternion.RotateVectorReverse, Quaternion.GetInverse, h, if_false,
    Quaternion.rotate, Quaternion.mul, Quaternion.conj]
  field_simp
  ring

/-- C18: in the HIL sensor packet of every inertial update, `diff_pressure` is
`0.5 * 1.2754 * v_x ^ 2` with `v_x` the x component of the world linear velocity
rotated into the body frame, so it is not negative and does not change when the
velocity is negated; the accelerations and angular velocities are those of the
update, `pressure_alt` is the world z position, and `abs_pressure` and
`temperature` are 0.  The rotation is the rotation by the conjugate of the
orientation `q = (w, x, y, z)`: for `q` of squared norm `s` away from zero,
`v_x = ((w² + x² - y² - z²) vx + 2 (x y + w z) vy + 2 (x z - w y) vz) / s`, and for
`q` of unit length it is the x component of `conj q * v * q`. -/
theorem ImuCallback_sensor_fields {α : Type} [LinearOrderedField α] [FloorRing α]
    (self : GazeboMavlinkInterface α) (world : World α) (imu_message : Imu α) (mag_noise : α) :
    (ImuCallback self world imu_message mag_noise).2
      = [Effect.hil_sensor (ImuCallback self world imu_message mag_noise).1.hil_sensor_msg_] ∧
    (ImuCallback self world imu_message mag_noise).1.hil_sensor_msg_.diff_pressure
      = 5 / 10 * (12754 / 10000)
          * (imu_message.orientation.RotateVectorReverse world.linearVel).x ^ 2 ∧
    0 ≤ (ImuCallback self world imu_message mag_noise).1.hil_sensor_msg_.diff_pressure ∧
    (ImuCallback self
        { world with
            linearVel := ⟨-world.linearVel.x, -world.linearVel.y, -world.linearVel.z⟩ }
        imu_message mag_noise).1.hil_sensor_msg_.diff_pressure
      = (ImuCallback self world imu_message mag_noise).1.hil_sensor_msg_.diff_pressure ∧
    (ImuCallback self world imu_message mag_noise).1.hil_sensor_msg_.xacc
      = imu_message.linear_acceleration.x ∧
    (ImuCallback self world imu_message mag_noise).1.hil_sensor_msg_.yacc
      = imu_message.linear_acceleration.y ∧
    (ImuCallback self world imu_message mag_noise).1.hil_sensor_msg_.zacc
      = imu_message.linear_acceleration.z ∧
    (ImuCallback self world imu_message mag_noise).1.hil_sensor_msg_.xgyro
      = imu_message.angular_velocity.x ∧
    (ImuCallback self world imu_message mag_noise).1.hil_sensor_msg_.ygyro
      = imu_message.angular_velocity.y ∧
    (ImuCallback self world imu_message mag_noise).1.hil_sensor_msg_.zgyro
      = imu_message.angular_velocity.z ∧
    (ImuCallback self world imu_message mag_noise).1.hil_sensor_msg_.pressure_alt
      = world.pos.z ∧
    (ImuCallback self world imu_message mag_noise).1.hil_sensor_msg_.abs_pressure = 0 ∧
    (ImuCallback self world imu_message mag_noise).1.hil_sensor_msg_.temperature = 0 ∧
    (1 / 1000000 < imu_message.orientation.w * imu_message.orientation.w
        + imu_message.orientation.x * imu_message.orientation.x
        + imu_message.orientation.y * imu_message.orientation.y
        + imu_message.orientation.z * imu_message.orientation.z →
      (ImuCallback self world imu_message mag_noise).1.hil_sensor_msg_.diff_pressure
        = 5 / 10 * (12754 / 10000)
          * (((imu_message.orientation.w * imu_message.orientation.w
                + imu_message.orientation.x * imu_message.orientation.x
                - imu_message.orientation.y * imu_message.orientation.y
                - imu_message.orientation.z * imu_message.orientation.z) * world.linearVel.x
              + 2 * (imu_message.orientation.x * imu_message.orientation.y
                  + imu_message.orientation.w * imu_message.orientation.z) * world.linearVel.y
              + 2 * (imu_message.orientation.x * imu_message.orientation.z
                  - imu_message.orientation.w * imu_message.orientation.y) * world.linearVel.z)
             / (imu_message.orientation.w * imu_message.orientation.w
                + imu_message.orientation.x * imu_message.orientation.x
                + imu_message.orientation.y * imu_message.orientation.y
                + imu_message.orientation.z * imu_message.orientation.z)) ^ 2) ∧
    (imu_message.orientation.w * imu_message.orientation.w
        + imu_message.orientation.x * imu_message.orientation.x
        + imu_message.orientation.y * imu_message.orientation.y
        + imu_message.orientation.z * imu_message.orientation.z = 1 →
      (ImuCallback self world imu_message mag_noise).1.hil_sensor_msg_.diff_pressure
        = 5 / 10 * (12754 / 10000)
            * (imu_message.orientation.conj.rotate world.linearVel).x ^ 2 ∧
      (imu_message.orientation.conj.rotate world.linearVel).x
        = (1 - 2 * (imu_message.orientation.y * imu_message.orientation.y
                + imu_message.orientation.z * imu_message.orientation.z)) * world.linearVel.x
          + 2 * (imu_message.orientation.x * imu_message.orientation.y
              + imu_message.orientation.w * imu_message.orientation.z) * world.linearVel.y
          + 2 * (imu_message.orientation.x * imu_message.orientation.z
              - imu_message.orientation.w * imu_message.orientation.y) * world.linearVel.z) := by
  have hd : ∀ w : World α,
      (ImuCallback self w imu_message mag_noise).1.hil_sensor_msg_.diff_pressure
        = 5 / 10 * (12754 / 10000)
            * (imu_message.orientation.RotateVectorReverse w.linearVel).x ^ 2 := by
    intro w
    show 5 / 10 * (12754 / 10000) * _ * _ = _
    ring
  refine ⟨rfl, hd world, ?_, ?_, rfl, rfl, rfl, rfl, rfl, rfl, rfl, rfl, rfl, ?_, ?_⟩
  · rw [hd world]
    positivity
  · rw [hd world, hd]
    show 5 / 10 * (12754 / 10000)
        * (imu_message.orientation.RotateVectorReverse
            ⟨-world.linearVel.x, -world.linearVel.y, -world.linearVel.z⟩).x ^ 2 = _
    rw [Quaternion.RotateVectorReverse_neg]
    ring
  · intro hs
    rw [hd world, Quaternion.RotateVectorReverse_x _ _ hs, Quaternion.conj_rotate_x]
  · intro hq
    have hs : 1 / 1000000 < imu_message.orientation.w * imu_message.orientation.w
        + imu_message.orientation.x * imu_message.orientation.x
        + imu_message.orientation.y * imu_message.orientation.y
        + imu_message.orientation.z * imu_message.orientation.z := by
      rw [hq]
      norm_num
    constructor
    · rw [hd world, Quaternion.RotateVectorReverse_x _ _ hs, hq, div_one]
    · rw [Quaternion.conj_rotate_x]
      have hw : imu_message.orientation.w * imu_message.orientation.w
          = 1 - imu_message.orientation.x * imu_message.orientation.x
            - imu_message.orientation.y * imu_message.orientation.y
            - imu_message.orientation.z * imu_message.orientation.z := by
        rw [← hq]
        ring
      rw [hw]
      ring

/-- C18, at a concrete update: with the orientation `(3/5, 0, 0, 4/5)`, a turn
about the vertical axis, and the world velocity `(1, 2, 3)`, the forward body
velocity is `-7/25 * 1 + 24/25 * 2 = 41/25` and `diff_pressure` is
`0.5 * 1.2754 * (41/25)^2`. -/
theorem ImuCallback_sensor_fields_witness :
    ((3 / 5 : ℚ) * (3 / 5) + 0 * 0 + 0 * 0 + (4 / 5) * (4 / 5) = 1) ∧
    (Imu.sample.orientation.conj.rotate (⟨1, 2, 3⟩ : Vector3 ℚ)).x = 41 / 25 ∧
    (ImuCallback (GazeboMavlinkInterface.ready true)
      (World.moving 0 ⟨0, 0, 50⟩ ⟨1, 2, 3⟩) Imu.sample 0).1.hil_sensor_msg_.diff_pressure
        = 5 / 10 * (12754 / 10000) * (41 / 25) ^ 2 ∧
    (ImuCallback (GazeboMavlinkInterface.ready true)
      (World.moving 0 ⟨0, 0, 50⟩ ⟨1, 2, 3⟩) Imu.sample 0).1.hil_sensor_msg_.pressure_alt
        = 50 := by
  have hunit : (3 / 5 : ℚ) * (3 / 5) + 0 * 0 + 0 * 0 + (4 / 5) * (4 / 5) = 1 := by norm_num
  have h := ImuCallback_sensor_fields (GazeboMavlinkInterface.ready true)
    (World.moving 0 ⟨0, 0, 50⟩ ⟨1, 2, 3⟩) Imu.sample 0
  have hu := h.2.2.2.2.2.2.2.2.2.2.2.2.2.2 hunit
  have hx : (Imu.sample.orientation.conj.rotate (⟨1, 2, 3⟩ : Vector3 ℚ)).x = 41 / 25 := by
    have h2 : (Imu.sample.orientation.conj.rotate (⟨1, 2, 3⟩ : Vector3 ℚ)).x
        = (1 - 2 * (Imu.sample.orientation.y * Imu.sample.orientation.y
                + Imu.sample.orientation.z * Imu.sample.orientation.z)) * 1
          + 2 * (Imu.sample.orientation.x * Imu.sample.orientation.y
              + Imu.sample.orientation.w * Imu.sample.orientation.z) * 2
          + 2 * (Imu.sample.orientation.x * Imu.sample.orientation.z
              - Imu.sample.orientation.w * Imu.sample.orientation.y) * 3 := hu.2
    rw [h2]
    norm_num [Imu.sample]
  have h1 : (ImuCallback (GazeboMavlinkInterface.ready true)
      (World.moving 0 ⟨0, 0, 50⟩ ⟨1, 2, 3⟩) Imu.sample 0).1.hil_sensor_msg_.diff_pressure
        = 5 / 10 * (12754 / 10000)
            * (Imu.sample.orientation.conj.rotate (⟨1, 2, 3⟩ : Vector3 ℚ)).x ^ 2 := hu.1
  refine ⟨hunit, hx, ?_, h.2.2.2.2.2.2.2.2.2.2.1⟩
  rw [h1, hx]

/-- The conversion of a whole number is that number. -/
theorem truncate_intCast {α : Type} [LinearOrderedField α] [FloorRing α] (n : Int) :
    truncate (n : α) = n := by
  unfold truncate
  split
  · exact Int.floor_intCast n
  · exact Int.ceil_intCast n

/-- A number inside the range of a signed type is kept by the reduction. -/
theorem toSigned_of_range (w : Nat) (n : Int) (hw : 0 < w) (hlo : -2 ^ (w - 1) ≤ n)
    (hhi : n < 2 ^ (w - 1)) : toSigned w n = n := by
  unfold toSigned
  have h2 : (2 : Int) ^ w = 2 * 2 ^ (w - 1) := by
    obtain ⟨k, rfl⟩ : ∃ k, w = k + 1 := ⟨w - 1, by omega⟩
    simp [pow_succ, mul_comm]
  rw [h2, Int.emod_eq_of_lt (by omega) (by omega)]
  omega

/-- A number inside the range of an unsigned type is kept by the reduction. -/
theorem toUnsigned_of_range (w : Nat) (n : Int) (hlo : 0 ≤ n) (hhi : n < 2 ^ w) :
    toUnsigned w n = n := by
  unfold toUnsigned
  exact Int.emod_eq_of_lt hlo hhi

/-- The conversion of a number in `[0, 1)` is 0. -/
theorem truncate_of_lt_one {α : Type} [LinearOrderedField α] [FloorRing α] (x : α)
    (h0 : 0 ≤ x) (h1 : x < 1) : truncate x = 0 := by
  unfold truncate
  rw [if_pos h0, Int.floor_eq_iff]
  constructor
  · simpa using h0
  · simpa using h1

/-- C16, as stated, fails: the velocity fields are integers.  With commands
available, the tick whose world velocity is `(1/1000, 0, 0)` emits a HIL GPS
packet with `vn = 0`, while `vx * 100` is `1/10`. -/
theorem gps_velocity_fields_refuted :
    (gpsPackets (OnUpdate Libm.rational (GazeboMavlinkInterface.ready true)
      (World.moving 1000000000 ⟨0, 0, 0⟩ ⟨1 / 1000, 0, 0⟩)).2).map (fun msg => msg.vn) = [0] ∧
    (1 / 1000 : ℚ) * 100 = 1 / 10 ∧ ((0 : Int) : ℚ) ≠ 1 / 10 := by
  have hgate : (World.moving 1000000000 (⟨0, 0, 0⟩ : Vector3 ℚ) ⟨1 / 1000, 0, 0⟩).simTime
      - (GazeboMavlinkInterface.ready true).last_gps_time_
        > Time.ofDouble (GazeboMavlinkInterface.ready true).gps_update_interval_ := by
    rw [ready_gps_update]
    decide
  refine ⟨?_, by norm_num, by norm_num⟩
  rw [gpsPackets_OnUpdate, if_pos ⟨rfl, hgate⟩]
  simp only [List.map_cons, List.map_nil]
  have h : (OnUpdate.hil_gps Libm.rational
      (World.moving 1000000000 (⟨0, 0, 0⟩ : Vector3 ℚ) ⟨1 / 1000, 0, 0⟩).simTime
      (World.moving 1000000000 (⟨0, 0, 0⟩ : Vector3 ℚ) ⟨1 / 1000, 0, 0⟩).pos
      (World.moving 1000000000 (⟨0, 0, 0⟩ : Vector3 ℚ) ⟨1 / 1000, 0, 0⟩).linearVel).vn
        = toSigned 16 (truncate ((1 / 1000 : ℚ) * 100)) := rfl
  rw [h, truncate_of_lt_one _ (by norm_num) (by norm_num)]
  rfl

/-- C16, amended: in every HIL GPS packet built from the world velocity
`(vx, vy, vz)`, the fields `vn`, `ve`, `vd` are `vx * 100`, `-vy * 100` and
`-vz * 100` converted to `int16_t` (the fraction dropped), and `vel` is
`sqrt(vx^2 + vy^2) * 100` converted to `uint16_t`; each field is the value itself
when the value is a whole number in the range of the field; `vel` does not depend
on `vz` and is not negative; `fix_type = 3`, `eph = epv = 100` and
`satellites_visible = 10`. -/
theorem gps_velocity_fields {α : Type} [LinearOrderedField α] [FloorRing α] (L : Libm α)
    (current_time : Time) (pos_W_I v : Vector3 α) :
    (OnUpdate.hil_gps L current_time pos_W_I v).vn = toSigned 16 (truncate (v.x * 100)) ∧
    (OnUpdate.hil_gps L current_time pos_W_I v).ve = toSigned 16 (truncate (-v.y * 100)) ∧
    (OnUpdate.hil_gps L current_time pos_W_I v).vd = toSigned 16 (truncate (-v.z * 100)) ∧
    (OnUpdate.hil_gps L current_time pos_W_I v).vel
      = toUnsigned 16 (truncate (L.sqrt (v.x * v.x + v.y * v.y) * 100)) ∧
    (∀ n : Int, v.x * 100 = n → -32768 ≤ n → n < 32768 →
      (OnUpdate.hil_gps L current_time pos_W_I v).vn = n) ∧
    (∀ n : Int, -v.y * 100 = n → -32768 ≤ n → n < 32768 →
      (OnUpdate.hil_gps L current_time pos_W_I v).ve = n) ∧
    (∀ n : Int, -v.z * 100 = n → -32768 ≤ n → n < 32768 →
      (OnUpdate.hil_gps L current_time pos_W_I v).vd = n) ∧
    (∀ n : Int, L.sqrt (v.x * v.x + v.y * v.y) * 100 = n → 0 ≤ n → n < 65536 →
      (OnUpdate.hil_gps L current_time pos_W_I v).vel = n) ∧
    (∀ vz : α, (OnUpdate.hil_gps L current_time pos_W_I { v with z := vz }).vel
      = (OnUpdate.hil_gps L current_time pos_W_I v).vel) ∧
    0 ≤ (OnUpdate.hil_gps L current_time pos_W_I v).vel ∧
    (OnUpdate.hil_gps L current_time pos_W_I v).fix_type = 3 ∧
    (OnUpdate.hil_gps L current_time pos_W_I v).eph = 100 ∧
    (OnUpdate.hil_gps L current_time pos_W_I v).epv = 100 ∧
    (OnUpdate.hil_gps L current_time pos_W_I v).satellites_visible = 10 := by
  have hvel : ∀ u : Vector3 α, (OnUpdate.hil_gps L current_time pos_W_I u).vel
      = toUnsigned 16 (truncate (L.sqrt (u.x * u.x + u.y * u.y) * 100)) := by
    intro u
    simp [OnUpdate.hil_gps, Vector3.GetLength]
  have hs : ∀ n : Int, -32768 ≤ n → n < 32768 → toSigned 16 n = n := fun n h1 h2 =>
    toSigned_of_range 16 n (by decide) (by simpa using h1) (by simpa using h2)
  refine ⟨rfl, rfl, rfl, hvel v, ?_, ?_, ?_, ?_, ?_, ?_, rfl, rfl, rfl, rfl⟩
  · intro n hn h1 h2
    show toSigned 16 (truncate (v.x * 100)) = n
    rw [hn, truncate_intCast, hs n h1 h2]
  · intro n hn h1 h2
    show toSigned 16 (truncate (-v.y * 100)) = n
    rw [hn, truncate_intCast, hs n h1 h2]
  · intro n hn h1 h2
    show toSigned 16 (truncate (-v.z * 100)) = n
    rw [hn, truncate_intCast, hs n h1 h2]
  · intro n hn h1 h2
    rw [hvel v, hn, truncate_intCast, toUnsigned_of_range 16 n h1 (by simpa using h2)]
  · intro vz
    rw [hvel, hvel]
  · rw [hvel v]
    unfold toUnsigned
    exact Int.emod_nonneg _ (by norm_num)

/-- C16, amended, at a concrete velocity: the world velocity `(3, -4, 7)` gives
`vn = 300`, `ve = 400`, `vd = -700` and `vel = 500`. -/
theorem gps_velocity_fields_witness :
    (OnUpdate.hil_gps Libm.rational ⟨0⟩ ⟨0, 0, 0⟩ ⟨3, -4, 7⟩).vn = 300 ∧
    (OnUpdate.hil_gps Libm.rational ⟨0⟩ ⟨0, 0, 0⟩ ⟨3, -4, 7⟩).ve = 400 ∧
    (OnUpdate.hil_gps Libm.rational ⟨0⟩ ⟨0, 0, 0⟩ ⟨3, -4, 7⟩).vd = -700 ∧
    (OnUpdate.hil_gps Libm.rational ⟨0⟩ ⟨0, 0, 0⟩ ⟨3, -4, 7⟩).vel = 500 := by
  have h := gps_velocity_fields Libm.rational ⟨0⟩ ⟨0, 0, 0⟩ ⟨3, -4, 7⟩
  refine ⟨h.2.2.2.2.1 300 (by norm_num) (by decide) (by decide),
    h.2.2.2.2.2.1 400 (by norm_num) (by decide) (by decide),
    h.2.2.2.2.2.2.1 (-700) (by norm_num) (by decide) (by decide),
    h.2.2.2.2.2.2.2.1 500 ?_ (by decide) (by decide)⟩
  have hs : Rat.sqrt ((3 : ℚ) * 3 + -4 * -4) = 5 := by
    rw [show (3 : ℚ) * 3 + -4 * -4 = 5 * 5 by norm_num, Rat.sqrt_eq]
    norm_num
  show Rat.sqrt ((3 : ℚ) * 3 + -4 * -4) * 100 = ((500 : Int) : ℚ)
  rw [hs]
  norm_num


/-- The reference latitude, read over the real numbers, lies strictly between 0
and a quarter turn. -/
theorem lat_zurich_real_bounds :
    0 < OnUpdate.lat_zurich Libm.real ∧ OnUpdate.lat_zurich Libm.real < Real.pi / 2 := by
  have hpi := Real.pi_pos
  have h : OnUpdate.lat_zurich Libm.real = 473667 / 10000 * Real.pi / 180 := rfl
  rw [h]
  constructor
  · positivity
  · linarith

/-- The latitude of the reprojection for a position due north of the origin. -/
theorem reproject_north (x z : ℝ) (hx : 0 < x)
    (hle : OnUpdate.lat_zurich Libm.real + x / 6353000 ≤ Real.pi / 2) :
    (OnUpdate.reproject Libm.real ⟨x, 0, z⟩).1 = OnUpdate.lat_zurich Libm.real + x / 6353000 := by
  have hc0 : 0 < x / 6353000 := by positivity
  have hsq : Real.sqrt (x / 6353000 * (x / 6353000) + -0 / 6353000 * (-0 / 6353000))
      = x / 6353000 := by
    rw [show x / 6353000 * (x / 6353000) + -0 / 6353000 * (-0 / 6353000)
      = x / 6353000 * (x / 6353000) by ring]
    exact Real.sqrt_mul_self hc0.le
  have hne : x / 6353000 ≠ 0 := hc0.ne'
  have hlat := lat_zurich_real_bounds
  have h1 : (OnUpdate.reproject Libm.real ⟨x, 0, z⟩).1
      = Real.arcsin (Real.cos (x / 6353000) * Real.sin (OnUpdate.lat_zurich Libm.real)
          + x / 6353000 * Real.sin (x / 6353000) * Real.cos (OnUpdate.lat_zurich Libm.real)
            / (x / 6353000)) := by
    simp only [OnUpdate.reproject, OnUpdate.earth_radius, Libm.real, hsq]
    rw [if_pos hne]
  rw [h1]
  have h2 : Real.cos (x / 6353000) * Real.sin (OnUpdate.lat_zurich Libm.real)
      + x / 6353000 * Real.sin (x / 6353000) * Real.cos (OnUpdate.lat_zurich Libm.real)
        / (x / 6353000)
      = Real.sin (OnUpdate.lat_zurich Libm.real + x / 6353000) := by
    rw [Real.sin_add]
    field_simp
    ring
  rw [h2]
  exact Real.arcsin_sin (by linarith [hlat.1, Real.pi_pos]) hle

/-- C12, as stated, fails for the altitude: the field `alt` is an integer.  With
commands available, the tick at the world position `(0, 0, 1/2000)` emits a HIL
GPS packet with `alt = 0`, while the z position times 1000 is `1/2`. -/
theorem gps_alt_refuted :
    (gpsPackets (OnUpdate Libm.rational (GazeboMavlinkInterface.ready true)
      (World.moving 1000000000 ⟨0, 0, 1 / 2000⟩ ⟨0, 0, 0⟩)).2).map (fun msg => msg.alt) = [0] ∧
    (1 / 2000 : ℚ) * 1000 = 1 / 2 ∧ ((0 : Int) : ℚ) ≠ 1 / 2 := by
  have hgate : (World.moving 1000000000 (⟨0, 0, 1 / 2000⟩ : Vector3 ℚ) ⟨0, 0, 0⟩).simTime
      - (GazeboMavlinkInterface.ready true).last_gps_time_
        > Time.ofDouble (GazeboMavlinkInterface.ready true).gps_update_interval_ := by
    rw [ready_gps_update]
    decide
  refine ⟨?_, by norm_num, by norm_num⟩
  rw [gpsPackets_OnUpdate, if_pos ⟨rfl, hgate⟩]
  simp only [List.map_cons, List.map_nil]
  have h : (OnUpdate.hil_gps Libm.rational
      (World.moving 1000000000 (⟨0, 0, 1 / 2000⟩ : Vector3 ℚ) ⟨0, 0, 0⟩).simTime
      (World.moving 1000000000 (⟨0, 0, 1 / 2000⟩ : Vector3 ℚ) ⟨0, 0, 0⟩).pos
      (World.moving 1000000000 (⟨0, 0, 1 / 2000⟩ : Vector3 ℚ) ⟨0, 0, 0⟩).linearVel).alt
        = toSigned 32 (truncate ((1 / 2000 : ℚ) * 1000)) := rfl
  rw [h, truncate_of_lt_one _ (by norm_num) (by norm_num)]
  rfl

/-- C12, amended: over the real numbers, for a position with `y = 0` and a
northward offset `x > 0` such that `lat0 + x/R ≤ π/2`, the reprojected latitude
is `lat0 + x/R`, strictly greater than the reference latitude `lat0`; the
altitude field of the HIL GPS packet is the z position times 1000 converted to
`int32_t` (the fraction dropped), and is that value itself when it is a whole
number in the range of the field.  For the position `(1000, 0, 50)` the latitude
exceeds the reference latitude and the altitude field is 50000. -/
theorem gps_north_and_alt (current_time : Time) (v : Vector3 ℝ) :
    (∀ x z : ℝ, 0 < x → OnUpdate.lat_zurich Libm.real + x / 6353000 ≤ Real.pi / 2 →
      (OnUpdate.reproject Libm.real ⟨x, 0, z⟩).1 = OnUpdate.lat_zurich Libm.real + x / 6353000 ∧
      OnUpdate.lat_zurich Libm.real < (OnUpdate.reproject Libm.real ⟨x, 0, z⟩).1) ∧
    (∀ pos_W_I : Vector3 ℝ,
      (OnUpdate.hil_gps Libm.real current_time pos_W_I v).alt
        = toSigned 32 (truncate (pos_W_I.z * 1000)) ∧
      ∀ n : Int, pos_W_I.z * 1000 = n → -2147483648 ≤ n → n < 2147483648 →
        (OnUpdate.hil_gps Libm.real current_time pos_W_I v).alt = n) ∧
    OnUpdate.lat_zurich Libm.real < (OnUpdate.reproject Libm.real ⟨1000, 0, 50⟩).1 ∧
    (OnUpdate.hil_gps Libm.real current_time ⟨1000, 0, 50⟩ v).alt = 50000 := by
  have halt : ∀ (pos_W_I : Vector3 ℝ) (n : Int), pos_W_I.z * 1000 = n → -2147483648 ≤ n →
      n < 2147483648 → (OnUpdate.hil_gps Libm.real current_time pos_W_I v).alt = n := by
    intro pos_W_I n hn h1 h2
    show toSigned 32 (truncate (pos_W_I.z * 1000)) = n
    rw [hn, truncate_intCast]
    exact toSigned_of_range 32 n (by decide) (by simpa using h1) (by simpa using h2)
  have hnorth : ∀ x z : ℝ, 0 < x →
      OnUpdate.lat_zurich Libm.real + x / 6353000 ≤ Real.pi / 2 →
      (OnUpdate.reproject Libm.real ⟨x, 0, z⟩).1 = OnUpdate.lat_zurich Libm.real + x / 6353000 ∧
      OnUpdate.lat_zurich Libm.real < (OnUpdate.reproject Libm.real ⟨x, 0, z⟩).1 := by
    intro x z hx hle
    have h := reproject_north x z hx hle
    refine ⟨h, ?_⟩
    rw [h]
    have : 0 < x / 6353000 := by positivity
    linarith
  have h1000 : OnUpdate.lat_zurich Libm.real + 1000 / 6353000 ≤ Real.pi / 2 := by
    have h : OnUpdate.lat_zurich Libm.real = 473667 / 10000 * Real.pi / 180 := rfl
    rw [h]
    linarith [Real.pi_gt_three]
  refine ⟨hnorth, fun pos_W_I => ⟨rfl, halt pos_W_I⟩,
    (hnorth 1000 50 (by norm_num) h1000).2, halt ⟨1000, 0, 50⟩ 50000 (by norm_num)
      (by decide) (by decide)⟩

/-- C12, amended, at concrete positions: 1000 m and 2000 m north of the origin
the latitude is the reference latitude plus `x/R`, and the z position 50 gives
the altitude field 50000. -/
theorem gps_north_and_alt_witness :
    (0 : ℝ) < 2000 ∧
    OnUpdate.lat_zurich Libm.real + 2000 / 6353000 ≤ Real.pi / 2 ∧
    (OnUpdate.reproject Libm.real ⟨2000, 0, 50⟩).1
      = OnUpdate.lat_zurich Libm.real + 2000 / 6353000 ∧
    OnUpdate.lat_zurich Libm.real < (OnUpdate.reproject Libm.real ⟨1000, 0, 50⟩).1 ∧
    (OnUpdate.hil_gps Libm.real ⟨0⟩ ⟨1000, 0, 50⟩ ⟨0, 0, 0⟩).alt = 50000 := by
  have h := gps_north_and_alt ⟨0⟩ ⟨0, 0, 0⟩
  have h2000 : OnUpdate.lat_zurich Libm.real + 2000 / 6353000 ≤ Real.pi / 2 := by
    have h : OnUpdate.lat_zurich Libm.real = 473667 / 10000 * Real.pi / 180 := rfl
    rw [h]
    linarith [Real.pi_gt_three]
  exact ⟨by norm_num, h2000, (h.1 2000 50 (by norm_num) h2000).1, h.2.2.1, h.2.2.2⟩


/-- The course field for a course that is not negative, over the real numbers:
the whole part of the angle times `180/3.1416 * 100`. -/
theorem cog_of_nonneg (current_time : Time) (pos_W_I v : Vector3 ℝ) (ne nn : Int)
    (hve : (OnUpdate.hil_gps Libm.real current_time pos_W_I v).ve = ne)
    (hvn : (OnUpdate.hil_gps Libm.real current_time pos_W_I v).vn = nn)
    (h0 : 0 ≤ Complex.arg ⟨(nn : ℝ), (ne : ℝ)⟩) :
    (OnUpdate.hil_gps Libm.real current_time pos_W_I v).cog
      = ⌊Complex.arg ⟨(nn : ℝ), (ne : ℝ)⟩ * 180 / (31416 / 10000) * 100⌋ := by
  have hcog : (OnUpdate.hil_gps Libm.real current_time pos_W_I v).cog
      = toUnsigned 16 (truncate (Libm.real.atan2
          (((OnUpdate.hil_gps Libm.real current_time pos_W_I v).ve : Int) : ℝ)
          (((OnUpdate.hil_gps Libm.real current_time pos_W_I v).vn : Int) : ℝ)
            * 180 / (31416 / 10000) * 100)) := rfl
  rw [hcog, hve, hvn]
  have hat : Libm.real.atan2 (ne : ℝ) (nn : ℝ) = Complex.arg ⟨(nn : ℝ), (ne : ℝ)⟩ := rfl
  rw [hat]
  have hpi := Complex.arg_le_pi ⟨(nn : ℝ), (ne : ℝ)⟩
  have hval0 : 0 ≤ Complex.arg ⟨(nn : ℝ), (ne : ℝ)⟩ * 180 / (31416 / 10000) * 100 := by
    positivity
  have hval1 : Complex.arg ⟨(nn : ℝ), (ne : ℝ)⟩ * 180 / (31416 / 10000) * 100 < 18001 := by
    have := Real.pi_lt_d4
    rw [div_mul_eq_mul_div, div_lt_iff₀ (by norm_num)]
    nlinarith
  have htr : truncate (Complex.arg ⟨(nn : ℝ), (ne : ℝ)⟩ * 180 / (31416 / 10000) * 100)
      = ⌊Complex.arg ⟨(nn : ℝ), (ne : ℝ)⟩ * 180 / (31416 / 10000) * 100⌋ := by
    unfold truncate
    rw [if_pos hval0]
  rw [htr]
  apply toUnsigned_of_range
  · exact Int.floor_nonneg.mpr hval0
  · have : ⌊Complex.arg ⟨(nn : ℝ), (ne : ℝ)⟩ * 180 / (31416 / 10000) * 100⌋ < 18001 := by
      rw [Int.floor_lt]
      exact_mod_cast hval1
    exact lt_trans this (by norm_num)

/-- C15 fails on the code: line 151 converts the course to degrees with the
literal `3.1416`, where the lines that fill `lat` and `lon` divide by `M_PI`.  For
the world velocity `(0, -1, 0)`, due east, the fields are `ve = 100` and `vn = 0`,
the course `atan2(-vy, vx) * 180/π * 100` is 9000, and the field `cog` is 8999; the
expression of line 151 with `M_PI` in place of `3.1416` gives 9000. -/
theorem gps_cog_due_east :
    (OnUpdate.hil_gps Libm.real ⟨0⟩ ⟨0, 0, 0⟩ ⟨0, -1, 0⟩).ve = 100 ∧
    (OnUpdate.hil_gps Libm.real ⟨0⟩ ⟨0, 0, 0⟩ ⟨0, -1, 0⟩).vn = 0 ∧
    (OnUpdate.hil_gps Libm.real ⟨0⟩ ⟨0, 0, 0⟩ ⟨0, -1, 0⟩).cog = 8999 ∧
    Libm.real.atan2 (-(-1)) 0 * 180 / Real.pi * 100 = 9000 ∧
    toUnsigned 16 (truncate
      (Libm.real.atan2 ((100 : Int) : ℝ) ((0 : Int) : ℝ) * 180 / Libm.real.M_PI * 100)) = 9000 ∧
    (OnUpdate.hil_gps Libm.real ⟨0⟩ ⟨0, 0, 0⟩ ⟨0, -1, 0⟩).lat
      = toSigned 32 (truncate ((OnUpdate.reproject Libm.real ⟨0, 0, 0⟩).1 * 180
          / Libm.real.M_PI * 10000000)) := by
  have harg : Complex.arg ⟨((0 : Int) : ℝ), ((100 : Int) : ℝ)⟩ = Real.pi / 2 := by
    rw [Complex.arg_eq_pi_div_two_iff]
    constructor
    · simp
    · simp
  have hve : (OnUpdate.hil_gps Libm.real ⟨0⟩ ⟨0, 0, 0⟩ ⟨0, -1, 0⟩).ve = 100 := by
    show toSigned 16 (truncate (-(-1 : ℝ) * 100)) = 100
    rw [show -(-1 : ℝ) * 100 = ((100 : Int) : ℝ) by norm_num, truncate_intCast]
    decide
  have hvn : (OnUpdate.hil_gps Libm.real ⟨0⟩ ⟨0, 0, 0⟩ ⟨0, -1, 0⟩).vn = 0 := by
    show toSigned 16 (truncate ((0 : ℝ) * 100)) = 0
    rw [show (0 : ℝ) * 100 = ((0 : Int) : ℝ) by norm_num, truncate_intCast]
    decide
  refine ⟨hve, hvn, ?_, ?_, ?_, rfl⟩
  · rw [cog_of_nonneg ⟨0⟩ ⟨0, 0, 0⟩ ⟨0, -1, 0⟩ 100 0 hve hvn
      (by rw [harg]; positivity), harg, Int.floor_eq_iff]
    have h1 := Real.pi_gt_d6
    have h2 := Real.pi_lt_d4
    constructor
    · rw [div_mul_eq_mul_div, le_div_iff₀ (by norm_num)]
      push_cast
      linarith
    · rw [div_mul_eq_mul_div, div_lt_iff₀ (by norm_num)]
      push_cast
      linarith
  · have h : Libm.real.atan2 (-(-1)) 0 = Real.pi / 2 := by
      show Complex.arg ⟨0, -(-1)⟩ = Real.pi / 2
      rw [Complex.arg_eq_pi_div_two_iff]
      constructor
      · simp
      · simp
    rw [h]
    field_simp
    ring
  · have h : Libm.real.atan2 ((100 : Int) : ℝ) ((0 : Int) : ℝ) * 180 / Libm.real.M_PI * 100
        = ((9000 : Int) : ℝ) := by
      show Complex.arg ⟨((0 : Int) : ℝ), ((100 : Int) : ℝ)⟩ * 180 / Real.pi * 100 = _
      rw [harg]
      have hpi := Real.pi_ne_zero
      field_simp
      ring
    rw [h, truncate_intCast]
    decide

end gazebo
